import Mathlib

/-!
# swscore: graph node identity and construction

A shallow embedding of `graph/types.go`.  Go strings are Lean `String`s, a
function that can panic returns an `Option` (`none` is the panic), and
`fmt.Sprintf` over `%s` / `%v` string arguments is concatenation.
-/

namespace Graph

/-! ## Constants (types.go, lines 10-24) -/

def GraphTypeApp : String := "app"
def GraphTypeService : String := "service"
def GraphTypeVersionedApp : String := "versionedApp"
def GraphTypeWorkload : String := "workload"
def NodeTypeApp : String := "app"
def NodeTypeService : String := "service"
def NodeTypeUnknown : String := "unknown"
def NodeTypeWorkload : String := "workload"
def Unknown : String := "unknown"
def passthroughCluster : String := "PassthroughCluster"
def blackHoleCluster : String := "BlackHoleCluster"

/-- Modelled from the spec: `IsOK` is called by `nodeID` and `NewNode` but is declared in a
file of the package that is not under src/.  The spec (4.1, step 1) defines a value as valid
when it is non-empty and not the sentinel "unknown". -/
def IsOK (telemetryVal : String) : Bool :=
  telemetryVal != "" && telemetryVal != Unknown

/-! ## Identifier generation (types.go, lines 163-249) -/

/-- The namespace preference of `nodeID` and `NewNode` (lines 180-183 and 86-89): the workload
namespace when it is OK, the service namespace otherwise. -/
def resolveNamespace (serviceNamespace workloadNamespace : String) : String :=
  if !IsOK workloadNamespace then serviceNamespace else workloadNamespace

/-- The function `nodeID` of types.go (lines 178-249).  `none` is the panic. -/
def nodeID (serviceNamespace service : String) (isRequestedService : Bool)
    (workloadNamespace workload app version graphType : String) : Option (String × String) :=
  let namespace_ := resolveNamespace serviceNamespace workloadNamespace
  if Unknown = namespace_ ∧ Unknown = workload ∧ Unknown = app ∧ service = "" then
    some ("unknown_source", NodeTypeUnknown)
  else if Unknown = workload ∧ Unknown = app ∧ Unknown = service then
    some ("svc_" ++ namespace_ ++ "_unknown", NodeTypeService)
  else
    let workloadOk := IsOK workload
    let appOk := IsOK app
    let serviceOk := IsOK service
    if !workloadOk && !appOk && !serviceOk then
      none
    else
      let svcPrefix := if isRequestedService then "requested_svc" else "svc"
      if graphType = GraphTypeWorkload ∨ graphType = GraphTypeService then
        if !workloadOk && !serviceOk then
          none
        else if !workloadOk then
          some (svcPrefix ++ "_" ++ namespace_ ++ "_" ++ service, NodeTypeService)
        else
          some ("wl_" ++ namespace_ ++ "_" ++ workload, NodeTypeWorkload)
      else
        let versionOk := IsOK version
        if appOk then
          if graphType = GraphTypeVersionedApp ∧ workloadOk then
            some ("vapp_" ++ namespace_ ++ "_" ++ workload, NodeTypeApp)
          else if graphType = GraphTypeVersionedApp ∧ versionOk then
            some ("vapp_" ++ namespace_ ++ "_" ++ app ++ "_" ++ version, NodeTypeApp)
          else
            some ("app_" ++ namespace_ ++ "_" ++ app, NodeTypeApp)
        else if workloadOk then
          some ("wl_" ++ namespace_ ++ "_" ++ workload, NodeTypeWorkload)
        else
          some (svcPrefix ++ "_" ++ namespace_ ++ "_" ++ service, NodeTypeService)

/-- The function `NodeID` of types.go (lines 164-166). -/
def NodeID (serviceNamespace service workloadNamespace workload app version graphType : String) :
    Option (String × String) :=
  nodeID serviceNamespace service false workloadNamespace workload app version graphType

/-- The function `InjectedServiceNodeID` of types.go (lines 169-171). -/
def InjectedServiceNodeID (serviceNamespace service graphType : String) :
    Option (String × String) :=
  nodeID serviceNamespace service false "" "" "" "" graphType

/-- The function `RequestedServiceNodeID` of types.go (lines 174-176). -/
def RequestedServiceNodeID (serviceNamespace service graphType : String) :
    Option (String × String) :=
  nodeID serviceNamespace service true "" "" "" "" graphType

/-! ## Nodes, edges and metadata (types.go, lines 26-42 and 83-140) -/

/-- Modelled from the spec: a value stored in a `Metadata` mapping.  The Go type is declared in
a file of the package that is not under src/; the spec (section 3) says the values are of mixed
type and names a boolean flag among the well-known entries. -/
inductive MetadataValue where
  | boolean (b : Bool)
  | text (s : String)
  | number (n : Int)
  deriving DecidableEq, Repr

/-- Modelled from the spec: the `Metadata` type is declared in a file of the package that is
not under src/.  The spec (section 3) describes an open string-keyed mapping with unique keys;
it is represented by its list of entries, at most one per key. -/
abbrev Metadata := List (String × MetadataValue)

/-- Modelled from the spec: `NewMetadata` is not under src/; like `make(Metadata)` it gives
the empty mapping. -/
def NewMetadata : Metadata := []

/-- Modelled from the spec: the well-known key of the "is egress cluster" flag (section 3); the
constant `IsEgressCluster` is declared in a file that is not under src/, and nothing below
depends on its text. -/
def IsEgressCluster : String := "isEgressCluster"

/-- The map assignment `m[key] = value`. -/
def Metadata.set (m : Metadata) (key : String) (value : MetadataValue) : Metadata :=
  (key, value) :: m.filter (fun e => e.1 != key)

/-- The map lookup `m[key]`, `none` when the key is absent. -/
def Metadata.get? (m : Metadata) (key : String) : Option MetadataValue :=
  (m.find? (fun e => e.1 == key)).map Prod.snd

/-- A `*Node`: the address of a node. -/
abbrev NodeRef := Nat

/-- The struct `Edge` (lines 38-42). -/
structure Edge where
  Source : NodeRef
  Dest : NodeRef
  Metadata : Metadata
  deriving DecidableEq, Repr

/-- The struct `Node` (lines 26-36). -/
structure Node where
  ID : String
  NodeType : String
  Namespace : String
  Workload : String
  App : String
  Version : String
  Service : String
  Edges : List Edge
  Metadata : Metadata
  deriving DecidableEq, Repr

/-- The function `NewNodeExplicit` of types.go (lines 95-140): the switch trims the fields
that the node type does not use, then the node is built. -/
def NewNodeExplicit (id namespace_ workload app version serviceName nodeType graphType : String) :
    Node :=
  let metadata : Metadata := []
  let trimmed : String × String × String × String × Metadata :=
    if nodeType = NodeTypeWorkload then
      (workload, (if app = Unknown then "" else app),
        (if version = Unknown then "" else version), "", metadata)
    else if nodeType = NodeTypeApp then
      if graphType ≠ GraphTypeVersionedApp then ("", app, "", "", metadata)
      else (workload, app, version, "", metadata)
    else if nodeType = NodeTypeService then
      ("", "", "", serviceName,
        (if serviceName = passthroughCluster ∨ serviceName = blackHoleCluster then
          metadata.set IsEgressCluster (MetadataValue.boolean true)
        else metadata))
    else (workload, app, version, serviceName, metadata)
  { ID := id
    NodeType := nodeType
    Namespace := namespace_
    Workload := trimmed.1
    App := trimmed.2.1
    Version := trimmed.2.2.1
    Service := trimmed.2.2.2.1
    Edges := []
    Metadata := trimmed.2.2.2.2 }

/-- The function `NewNode` of types.go (lines 84-92); `none` when `NodeID` panics. -/
def NewNode (serviceNamespace serviceName workloadNamespace workload app version
    graphType : String) : Option Node :=
  match NodeID serviceNamespace serviceName workloadNamespace workload app version graphType with
  | none => none
  | some (id, nodeType) =>
    let namespace_ := resolveNamespace serviceNamespace workloadNamespace
    some (NewNodeExplicit id namespace_ workload app version serviceName nodeType graphType)

/-! ## Edges in memory (types.go, lines 142-156) -/

/-- An `*Edge`: the address of an edge. -/
abbrev EdgeRef := Nat

/-- A Go slice header of type `[]*Edge`: the address of its first slot, its length and its
capacity.  The slots `ptr`, ..., `ptr + cap - 1` belong to its backing array. -/
structure Slice where
  ptr : Nat
  len : Nat
  cap : Nat
  deriving DecidableEq, Repr

/-- The struct `Node` (lines 26-36) as it lies in memory: the field `Edges` is a slice header,
so two node structs can share one backing array.  `Node` above is the value that
`NewNodeExplicit` returns, whose `Edges` is the empty slice. -/
structure NodeCell where
  ID : String
  NodeType : String
  Namespace : String
  Workload : String
  App : String
  Version : String
  Service : String
  Edges : Slice
  Metadata : Metadata
  deriving DecidableEq, Repr

/-- The memory that `AddEdge` works on: the node struct at each `*Node` address (`none` for
nil and for an address that holds no node), the `*Edge` in each slot of the backing arrays,
the edge at each `*Edge` address, and the first slot and the first edge address that the
allocator has not handed out yet. -/
structure Memory where
  nodes : NodeRef → Option NodeCell
  slots : Nat → EdgeRef
  edges : EdgeRef → Option Edge
  nextSlot : Nat
  nextEdge : EdgeRef

/-- The elements of a slice, `sl[0]`, ..., `sl[len-1]`. -/
def Memory.elems (m : Memory) (sl : Slice) : List EdgeRef :=
  (List.range sl.len).map (fun i => m.slots (sl.ptr + i))

/-- The builtin `append(sl, p)` for one element.  With spare capacity the element is written
into the backing array of `sl`, behind its last element; otherwise a new array is allocated,
the elements are copied into it and the remaining slots are nil (0).  The capacity of the new
array is left to the Go runtime: it is `growCap` of the old capacity, and at least `len + 1`. -/
def Memory.append (growCap : Nat → Nat) (m : Memory) (sl : Slice) (p : EdgeRef) :
    Memory × Slice :=
  if sl.len < sl.cap then
    ({ m with slots := fun a => if a = sl.ptr + sl.len then p else m.slots a },
      { sl with len := sl.len + 1 })
  else
    let newCap := max (sl.len + 1) (growCap sl.cap)
    ({ m with
        slots := fun a =>
          if a < m.nextSlot ∨ m.nextSlot + newCap ≤ a then m.slots a
          else if a < m.nextSlot + sl.len then m.slots (sl.ptr + (a - m.nextSlot))
          else if a = m.nextSlot + sl.len then p
          else 0
        nextSlot := m.nextSlot + newCap },
      { ptr := m.nextSlot, len := sl.len + 1, cap := newCap })

/-- The function `NewEdge` of types.go (lines 150-156). -/
def NewEdge (source dest : NodeRef) : Edge :=
  { Source := source, Dest := dest, Metadata := NewMetadata }

/-- The method `AddEdge` of types.go (lines 143-147).  The local `e` whose address is taken
is a newly allocated edge; `s.Edges` is read and written through the receiver, and `dest` is
only stored in the edge.  `none` is the panic on a receiver that points to no node. -/
def AddEdge (growCap : Nat → Nat) (m : Memory) (s dest : NodeRef) :
    Option (Memory × EdgeRef) :=
  let p := m.nextEdge
  let m1 : Memory :=
    { m with
      edges := fun q => if q = p then some (NewEdge s dest) else m.edges q
      nextEdge := p + 1 }
  match m1.nodes s with
  | none => none
  | some cell =>
    let r := m1.append growCap cell.Edges p
    some ({ r.1 with
            nodes := fun x => if x = s then some { cell with Edges := r.2 } else r.1.nodes x },
          p)

/-! ## Namespace registry (types.go, lines 44-65) -/

/-- The struct `NamespaceInfo` (lines 44-48); a `time.Duration` is a number of nanoseconds. -/
structure NamespaceInfo where
  Name : String
  Duration : Int
  IsIstio : Bool
  deriving DecidableEq, Repr

/-- The type `NamespaceInfoMap` (line 50): the entries of the Go map, listed in the order in
which a `range` loop visits them.  Go leaves that order unspecified, so a property of the map
is stated for every order of its entries. -/
abbrev NamespaceInfoMap := List (String × NamespaceInfo)

/-- The function `NewNamespaceInfoMap` of types.go (lines 52-54). -/
def NewNamespaceInfoMap : NamespaceInfoMap := []

/-- A Go `[]string`: the nil slice, or an allocated slice with its elements. -/
inductive StringSlice where
  | nilSlice
  | elems (xs : List String)
  deriving DecidableEq, Repr

/-- The builtin `append(slice, x)`. -/
def StringSlice.append : StringSlice → String → StringSlice
  | StringSlice.nilSlice, x => StringSlice.elems [x]
  | StringSlice.elems xs, x => StringSlice.elems (xs ++ [x])

/-- The method `GetIstioNamespaces` of types.go (lines 57-65): the loop over the entries,
started from the allocated empty slice `[]string{}`. -/
def GetIstioNamespaces (in_ : NamespaceInfoMap) : StringSlice :=
  in_.foldl
    (fun result entry =>
      if entry.2.IsIstio then result.append entry.2.Name else result)
    (StringSlice.elems [])

/-! ## Shared lemmas -/

/-- A value is OK exactly when it is neither empty nor "unknown". -/
theorem IsOK_iff (s : String) : IsOK s = true ↔ s ≠ "" ∧ s ≠ "unknown" := by
  simp [IsOK, Unknown]

/-! ## Failure of `NodeID` -/

/-- C1 (counterexample): in the workload and service variants `NodeID` fails on a tuple
whose app is valid, because workload and service are both invalid. -/
theorem NodeID_fails_with_valid_app :
    IsOK "a" = true
      ∧ NodeID "ns" "" "" "" "a" "" GraphTypeWorkload = none
      ∧ NodeID "ns" "" "" "" "a" "" GraphTypeService = none := by
  decide

/-- C1 (amended): `NodeID` fails exactly when the tuple matches neither the unknown-source
nor the unknown-destination sentinel, workload and service are both invalid, and either app
is invalid too or the graph variant is workload or service. -/
theorem NodeID_eq_none_iff (serviceNamespace service workloadNamespace workload app version
    graphType : String) :
    NodeID serviceNamespace service workloadNamespace workload app version graphType = none ↔
      ¬ (resolveNamespace serviceNamespace workloadNamespace = "unknown" ∧ workload = "unknown"
          ∧ app = "unknown" ∧ service = "")
      ∧ ¬ (workload = "unknown" ∧ app = "unknown" ∧ service = "unknown")
      ∧ IsOK workload = false ∧ IsOK service = false
      ∧ (IsOK app = false ∨ graphType = "workload" ∨ graphType = "service") := by
  unfold NodeID nodeID
  simp only [Unknown, GraphTypeWorkload, GraphTypeService, GraphTypeVersionedApp,
    NodeTypeUnknown, NodeTypeService, NodeTypeApp, NodeTypeWorkload]
  by_cases h1 : "unknown" = resolveNamespace serviceNamespace workloadNamespace
      ∧ "unknown" = workload ∧ "unknown" = app ∧ service = ""
  · rw [if_pos h1]
    obtain ⟨h, rfl, rfl, rfl⟩ := h1
    simp [h.symm]
  · rw [if_neg h1]
    by_cases h2 : "unknown" = workload ∧ "unknown" = app ∧ "unknown" = service
    · rw [if_pos h2]
      obtain ⟨rfl, rfl, rfl⟩ := h2
      simp
    · rw [if_neg h2]
      have h1' : ¬ (resolveNamespace serviceNamespace workloadNamespace = "unknown"
          ∧ workload = "unknown" ∧ app = "unknown" ∧ service = "") := by
        rintro ⟨a, b, c, d⟩; exact h1 ⟨a.symm, b.symm, c.symm, d⟩
      have h2' : ¬ (workload = "unknown" ∧ app = "unknown" ∧ service = "unknown") := by
        rintro ⟨a, b, c⟩; exact h2 ⟨a.symm, b.symm, c.symm⟩
      simp only [h1', h2', not_false_eq_true, true_and]
      cases hw : IsOK workload <;> cases ha : IsOK app <;> cases hs : IsOK service <;>
        by_cases hg : graphType = "workload" ∨ graphType = "service" <;>
        simp [hg] <;> split_ifs <;> simp

/-! ## The two sentinels -/

/-- C2: `NodeID` returns node kind unknown exactly when the resolved namespace, workload and
app are all "unknown" and service is empty, and exactly then the result is the identifier
"unknown_source" with kind unknown, whatever version and graph variant are. -/
theorem NodeID_kind_unknown_iff (serviceNamespace service workloadNamespace workload app
    version graphType : String) :
    ((NodeID serviceNamespace service workloadNamespace workload app version graphType).map
        Prod.snd = some NodeTypeUnknown ↔
      (resolveNamespace serviceNamespace workloadNamespace = "unknown" ∧ workload = "unknown"
        ∧ app = "unknown" ∧ service = ""))
    ∧ (NodeID serviceNamespace service workloadNamespace workload app version graphType
        = some ("unknown_source", NodeTypeUnknown) ↔
      (resolveNamespace serviceNamespace workloadNamespace = "unknown" ∧ workload = "unknown"
        ∧ app = "unknown" ∧ service = "")) := by
  unfold NodeID nodeID
  simp only [Unknown, GraphTypeWorkload, GraphTypeService, GraphTypeVersionedApp,
    NodeTypeUnknown, NodeTypeService, NodeTypeApp, NodeTypeWorkload]
  by_cases h1 : "unknown" = resolveNamespace serviceNamespace workloadNamespace
      ∧ "unknown" = workload ∧ "unknown" = app ∧ service = ""
  · rw [if_pos h1]
    obtain ⟨h, rfl, rfl, rfl⟩ := h1
    simp [h.symm]
  · rw [if_neg h1]
    have h1' : ¬ (resolveNamespace serviceNamespace workloadNamespace = "unknown"
        ∧ workload = "unknown" ∧ app = "unknown" ∧ service = "") := by
      rintro ⟨a, b, c, d⟩; exact h1 ⟨a.symm, b.symm, c.symm, d⟩
    simp only [h1', iff_false]
    constructor <;> split_ifs <;> simp

/-- C3: when workload, app and service are all "unknown", `NodeID` returns the identifier
"svc_" ++ ns ++ "_unknown" with kind service, ns being the resolved namespace, for every
version and graph variant; so two such tuples with the same resolved namespace get the same
result. -/
theorem NodeID_unknown_destination (serviceNamespace service workloadNamespace workload app
    version graphType : String)
    (hw : workload = "unknown") (ha : app = "unknown") (hs : service = "unknown") :
    NodeID serviceNamespace service workloadNamespace workload app version graphType
        = some ("svc_" ++ resolveNamespace serviceNamespace workloadNamespace ++ "_unknown",
            NodeTypeService)
    ∧ ∀ serviceNamespace2 workloadNamespace2 version2 graphType2 : String,
        resolveNamespace serviceNamespace2 workloadNamespace2
            = resolveNamespace serviceNamespace workloadNamespace →
          NodeID serviceNamespace2 "unknown" workloadNamespace2 "unknown" "unknown" version2
              graphType2
            = NodeID serviceNamespace service workloadNamespace workload app version
                graphType := by
  subst hw ha hs
  have key : ∀ sn wn v g : String, NodeID sn "unknown" wn "unknown" "unknown" v g
      = some ("svc_" ++ resolveNamespace sn wn ++ "_unknown", NodeTypeService) := by
    intro sn wn v g
    unfold NodeID nodeID
    simp [Unknown]
  refine ⟨key _ _ _ _, ?_⟩
  intro sn2 wn2 v2 g2 h
  rw [key, key, h]

/-- C3 (witness): the spec's example, and a second tuple of the same resolved namespace. -/
theorem NodeID_unknown_destination_witness :
    NodeID "billing" "unknown" "" "unknown" "unknown" "" "workload"
        = some ("svc_billing_unknown", "service")
    ∧ NodeID "other" "unknown" "billing" "unknown" "unknown" "v1" "app"
        = NodeID "billing" "unknown" "" "unknown" "unknown" "" "workload" :=
  ⟨(NodeID_unknown_destination "billing" "unknown" "" "unknown" "unknown" "" "workload"
      rfl rfl rfl).1,
   (NodeID_unknown_destination "billing" "unknown" "" "unknown" "unknown" "" "workload"
      rfl rfl rfl).2 "other" "billing" "v1" "app" (by decide)⟩

/-! ## Graph-variant dispatch -/

/-- C4: in the workload and service variants, a valid workload gives the identifier
"wl_" ++ ns ++ "_" ++ workload of kind workload whatever app, version and service are, and an
invalid workload with a valid service gives "svc_" ++ ns ++ "_" ++ service of kind service. -/
theorem NodeID_workload_variant (serviceNamespace service workloadNamespace workload app
    version graphType : String)
    (hg : graphType = GraphTypeWorkload ∨ graphType = GraphTypeService) :
    (IsOK workload = true →
      NodeID serviceNamespace service workloadNamespace workload app version graphType
        = some ("wl_" ++ resolveNamespace serviceNamespace workloadNamespace ++ "_" ++ workload,
            NodeTypeWorkload))
    ∧ (IsOK workload = false → IsOK service = true →
      NodeID serviceNamespace service workloadNamespace workload app version graphType
        = some ("svc_" ++ resolveNamespace serviceNamespace workloadNamespace ++ "_" ++ service,
            NodeTypeService)) := by
  constructor
  · intro hw
    have hw' := (IsOK_iff workload).1 hw
    unfold NodeID nodeID
    simp only [Unknown]
    rw [if_neg (fun h => hw'.2 h.2.1.symm), if_neg (fun h => hw'.2 h.1.symm)]
    simp [hw, hg]
  · intro hw hs
    have hs' := (IsOK_iff service).1 hs
    unfold NodeID nodeID
    simp only [Unknown]
    rw [if_neg (fun h => hs'.1 h.2.2.2), if_neg (fun h => hs'.2 h.2.2.symm)]
    simp [hw, hs, hg]

/-- C4 (witness): the spec's workload example and a service node of the service variant. -/
theorem NodeID_workload_variant_witness :
    NodeID "billing" "" "billing" "api-v2" "" "" "workload"
        = some ("wl_billing_api-v2", "workload")
    ∧ NodeID "billing" "db" "" "unknown" "api" "v2" "service"
        = some ("svc_billing_db", "service") :=
  ⟨(NodeID_workload_variant "billing" "" "billing" "api-v2" "" "" "workload"
      (Or.inl rfl)).1 (by decide),
   (NodeID_workload_variant "billing" "db" "" "unknown" "api" "v2" "service"
      (Or.inr rfl)).2 (by decide) (by decide)⟩

/-- C5: in the app and versionedApp variants a valid app gives kind app; the identifier is
"vapp_" ++ ns ++ "_" ++ workload for versionedApp with a valid workload,
"vapp_" ++ ns ++ "_" ++ app ++ "_" ++ version for versionedApp with an invalid workload and a
valid version, and "app_" ++ ns ++ "_" ++ app in every other case. -/
theorem NodeID_app_variant (serviceNamespace service workloadNamespace workload app
    version graphType : String)
    (hg : graphType = GraphTypeApp ∨ graphType = GraphTypeVersionedApp)
    (ha : IsOK app = true) :
    NodeID serviceNamespace service workloadNamespace workload app version graphType
      = some
          (if graphType = GraphTypeVersionedApp ∧ IsOK workload = true then
            "vapp_" ++ resolveNamespace serviceNamespace workloadNamespace ++ "_" ++ workload
          else if graphType = GraphTypeVersionedApp ∧ IsOK workload = false
              ∧ IsOK version = true then
            "vapp_" ++ resolveNamespace serviceNamespace workloadNamespace ++ "_" ++ app
              ++ "_" ++ version
          else
            "app_" ++ resolveNamespace serviceNamespace workloadNamespace ++ "_" ++ app,
          NodeTypeApp) := by
  have ha' := (IsOK_iff app).1 ha
  have hg' : ¬ (graphType = GraphTypeWorkload ∨ graphType = GraphTypeService) := by
    rcases hg with rfl | rfl <;> decide
  unfold NodeID nodeID
  simp only [Unknown]
  rw [if_neg (fun h => ha'.2 h.2.2.1.symm), if_neg (fun h => ha'.2 h.2.1.symm)]
  simp only [ha, if_neg hg']
  cases hw : IsOK workload <;> cases hv : IsOK version <;>
    by_cases hva : graphType = GraphTypeVersionedApp <;> simp [hva]

/-- C5 (witness): the spec's versionedApp and app examples, and a versionedApp tuple without
workload. -/
theorem NodeID_app_variant_witness :
    NodeID "billing" "" "billing" "api-v2" "api" "v2" "versionedApp"
        = some ("vapp_billing_api-v2", "app")
    ∧ NodeID "billing" "" "" "" "api" "v2" "versionedApp"
        = some ("vapp_billing_api_v2", "app")
    ∧ NodeID "billing" "" "" "" "api" "" "app" = some ("app_billing_api", "app") :=
  ⟨NodeID_app_variant "billing" "" "billing" "api-v2" "api" "v2" "versionedApp"
      (Or.inr rfl) (by decide),
   NodeID_app_variant "billing" "" "" "" "api" "v2" "versionedApp" (Or.inr rfl) (by decide),
   NodeID_app_variant "billing" "" "" "" "api" "" "app" (Or.inl rfl) (by decide)⟩

/-- C6: in the app and versionedApp variants with an invalid app, a valid workload gives
"wl_" ++ ns ++ "_" ++ workload of kind workload, and an invalid workload with a valid service
gives "svc_" ++ ns ++ "_" ++ service of kind service. -/
theorem NodeID_app_variant_fallback (serviceNamespace service workloadNamespace workload app
    version graphType : String)
    (hg : graphType = GraphTypeApp ∨ graphType = GraphTypeVersionedApp)
    (ha : IsOK app = false) :
    (IsOK workload = true →
      NodeID serviceNamespace service workloadNamespace workload app version graphType
        = some ("wl_" ++ resolveNamespace serviceNamespace workloadNamespace ++ "_" ++ workload,
            NodeTypeWorkload))
    ∧ (IsOK workload = false → IsOK service = true →
      NodeID serviceNamespace service workloadNamespace workload app version graphType
        = some ("svc_" ++ resolveNamespace serviceNamespace workloadNamespace ++ "_" ++ service,
            NodeTypeService)) := by
  have hg' : ¬ (graphType = GraphTypeWorkload ∨ graphType = GraphTypeService) := by
    rcases hg with rfl | rfl <;> decide
  constructor
  · intro hw
    have hw' := (IsOK_iff workload).1 hw
    unfold NodeID nodeID
    simp only [Unknown]
    rw [if_neg (fun h => hw'.2 h.2.1.symm), if_neg (fun h => hw'.2 h.1.symm)]
    simp [hw, ha, hg']
  · intro hw hs
    have hs' := (IsOK_iff service).1 hs
    unfold NodeID nodeID
    simp only [Unknown]
    rw [if_neg (fun h => hs'.1 h.2.2.2), if_neg (fun h => hs'.2 h.2.2.symm)]
    simp [hw, hs, ha, hg']

/-- C6 (witness): an app-variant tuple with a workload but no app label, and a versionedApp
tuple with only a service. -/
theorem NodeID_app_variant_fallback_witness :
    NodeID "billing" "db" "" "db-v1" "" "" "app" = some ("wl_billing_db-v1", "workload")
    ∧ NodeID "billing" "db" "" "" "unknown" "v1" "versionedApp"
        = some ("svc_billing_db", "service") :=
  ⟨(NodeID_app_variant_fallback "billing" "db" "" "db-v1" "" "" "app" (Or.inl rfl)
      (by decide)).1 (by decide),
   (NodeID_app_variant_fallback "billing" "db" "" "" "unknown" "v1" "versionedApp"
      (Or.inr rfl) (by decide)).2 (by decide) (by decide)⟩

/-! ## Injected and requested service identifiers -/

/-- An empty workload namespace resolves to the service namespace. -/
theorem resolveNamespace_empty (serviceNamespace : String) :
    resolveNamespace serviceNamespace "" = serviceNamespace := by
  simp [resolveNamespace, IsOK]

/-- With empty workload, app and version, `nodeID` returns a service identifier exactly when
the service name is OK. -/
theorem nodeID_service_only (serviceNamespace service graphType : String) (b : Bool) :
    nodeID serviceNamespace service b "" "" "" "" graphType
      = if IsOK service = true then
          some ((if b then "requested_svc_" else "svc_") ++ serviceNamespace ++ "_" ++ service,
            NodeTypeService)
        else none := by
  have h0 : IsOK "" = false := by decide
  unfold nodeID
  simp only [Unknown, resolveNamespace_empty, h0]
  rw [if_neg (fun h => absurd h.2.1 (by decide)), if_neg (fun h => absurd h.1 (by decide))]
  cases hs : IsOK service <;> cases b <;> simp

/-- C7: for every serviceNamespace, service name and graphType, `InjectedServiceNodeID` and
`RequestedServiceNodeID` return exactly when the service name is valid, and the node kind
they return is then service: never app, workload or unknown. -/
theorem service_nodeID_kind (serviceNamespace service graphType : String) :
    (InjectedServiceNodeID serviceNamespace service graphType).map Prod.snd
        = (if IsOK service = true then some NodeTypeService else none)
    ∧ (RequestedServiceNodeID serviceNamespace service graphType).map Prod.snd
        = (if IsOK service = true then some NodeTypeService else none) := by
  unfold InjectedServiceNodeID RequestedServiceNodeID
  rw [nodeID_service_only, nodeID_service_only]
  cases hs : IsOK service <;> simp

/-- C8: the requested flag affects only the identifier prefix: `RequestedServiceNodeID` is
`InjectedServiceNodeID` with "requested_" prepended to the identifier (so it fails exactly
when `InjectedServiceNodeID` fails and gives the same kind), and when the service name is
valid the two identifiers are "svc_" ++ serviceNamespace ++ "_" ++ service and
"requested_svc_" ++ serviceNamespace ++ "_" ++ service. -/
theorem requested_nodeID_eq_injected (serviceNamespace service graphType : String) :
    RequestedServiceNodeID serviceNamespace service graphType
        = (InjectedServiceNodeID serviceNamespace service graphType).map
            (fun r => ("requested_" ++ r.1, r.2))
    ∧ (RequestedServiceNodeID serviceNamespace service graphType = none ↔
        InjectedServiceNodeID serviceNamespace service graphType = none)
    ∧ InjectedServiceNodeID serviceNamespace service graphType
        = (if IsOK service = true then
            some ("svc_" ++ serviceNamespace ++ "_" ++ service, NodeTypeService)
          else none)
    ∧ RequestedServiceNodeID serviceNamespace service graphType
        = (if IsOK service = true then
            some ("requested_svc_" ++ serviceNamespace ++ "_" ++ service, NodeTypeService)
          else none) := by
  have happ : ∀ x : String, "requested_" ++ ("svc_" ++ x) = "requested_svc_" ++ x := by
    intro x
    rw [← String.append_assoc]
    rfl
  unfold InjectedServiceNodeID RequestedServiceNodeID
  rw [nodeID_service_only, nodeID_service_only]
  cases hs : IsOK service <;> simp [String.append_assoc, happ]

/-! ## Collisions between identifiers -/

/-- Two lists that agree after splitting each at its first underscore: the parts before and
after the underscore agree. -/
theorem append_underscore_cancel (l1 l2 r1 r2 : List Char) (h1 : '_' ∉ l1) (h2 : '_' ∉ l2)
    (h : l1 ++ '_' :: r1 = l2 ++ '_' :: r2) : l1 = l2 ∧ r1 = r2 := by
  induction l1 generalizing l2 with
  | nil =>
    cases l2 with
    | nil => simpa using h
    | cons c l2 =>
      simp at h
      simp at h2
      exact absurd h.1 h2.1
  | cons c l1 ih =>
    cases l2 with
    | nil =>
      simp at h
      simp at h1
      exact absurd h.1.symm h1.1
    | cons d l2 =>
      simp at h h1 h2
      obtain ⟨rfl, h⟩ := h
      obtain ⟨e1, e2⟩ := ih l2 h1.2 h2.2 h
      exact ⟨by rw [e1], e2⟩

/-- The shapes of a result of `NodeID`: the kind, the identifier, and the rule that built it. -/
theorem NodeID_some_cases (serviceNamespace service workloadNamespace workload app version
    graphType id kind : String)
    (h : NodeID serviceNamespace service workloadNamespace workload app version graphType
      = some (id, kind)) :
    (kind = NodeTypeUnknown ∧ id = "unknown_source"
        ∧ resolveNamespace serviceNamespace workloadNamespace = "unknown")
    ∨ (kind = NodeTypeService
        ∧ id = "svc_" ++ (resolveNamespace serviceNamespace workloadNamespace ++ "_" ++ service))
    ∨ (kind = NodeTypeWorkload
        ∧ id = "wl_" ++ (resolveNamespace serviceNamespace workloadNamespace ++ "_" ++ workload))
    ∨ (kind = NodeTypeApp
        ∧ id = "app_" ++ (resolveNamespace serviceNamespace workloadNamespace ++ "_" ++ app)
        ∧ (graphType ≠ GraphTypeVersionedApp ∨ (IsOK workload = false ∧ IsOK version = false)))
    ∨ (kind = NodeTypeApp
        ∧ id = "vapp_" ++ (resolveNamespace serviceNamespace workloadNamespace ++ "_" ++ workload)
        ∧ graphType = GraphTypeVersionedApp ∧ IsOK workload = true)
    ∨ (kind = NodeTypeApp
        ∧ id = "vapp_" ++ (resolveNamespace serviceNamespace workloadNamespace ++ "_"
            ++ (app ++ "_" ++ version))
        ∧ graphType = GraphTypeVersionedApp ∧ IsOK workload = false
        ∧ IsOK version = true) := by
  unfold NodeID nodeID at h
  simp only [Unknown] at h
  by_cases h1 : "unknown" = resolveNamespace serviceNamespace workloadNamespace
      ∧ "unknown" = workload ∧ "unknown" = app ∧ service = ""
  · rw [if_pos h1] at h
    simp only [Option.some.injEq, Prod.mk.injEq] at h
    exact Or.inl ⟨h.2.symm, h.1.symm, h1.1.symm⟩
  · rw [if_neg h1] at h
    by_cases h2 : "unknown" = workload ∧ "unknown" = app ∧ "unknown" = service
    · rw [if_pos h2] at h
      simp only [Option.some.injEq, Prod.mk.injEq] at h
      refine Or.inr (Or.inl ⟨h.2.symm, ?_⟩)
      rw [← h.1, ← h2.2.2]
      simp [String.append_assoc]
    · rw [if_neg h2] at h
      cases hw : IsOK workload <;> cases ha : IsOK app <;> cases hs : IsOK service <;>
        by_cases hg : graphType = GraphTypeWorkload ∨ graphType = GraphTypeService <;>
        simp [hw, ha, hs, hg] at h <;> (try split_ifs at h) <;>
        obtain ⟨rfl, rfl⟩ := h <;>
        simp_all [String.append_assoc, NodeTypeApp, NodeTypeService, NodeTypeWorkload,
          NodeTypeUnknown] <;>
        tauto

/-- C9 (counterexample): equal identifiers for different identities.  In the workload variant
the namespaces "a_b" and "a" with the valid workloads "c" and "b_c" both give "wl_a_b_c"; in
the versionedApp variant the labels app "a_b", version "c" and app "a", version "b_c" both
give "vapp_ns_a_b_c", and so does the workload "a_b_c" of a tuple whose app is "x". -/
theorem NodeID_collision :
    (NodeID "a_b" "" "" "c" "" "" GraphTypeWorkload = some ("wl_a_b_c", NodeTypeWorkload)
      ∧ NodeID "a" "" "" "b_c" "" "" GraphTypeWorkload = some ("wl_a_b_c", NodeTypeWorkload)
      ∧ IsOK "c" = true ∧ IsOK "b_c" = true
      ∧ resolveNamespace "a_b" "" ≠ resolveNamespace "a" "" ∧ "c" ≠ "b_c")
    ∧ (NodeID "ns" "" "" "" "a_b" "c" GraphTypeVersionedApp
          = some ("vapp_ns_a_b_c", NodeTypeApp)
      ∧ NodeID "ns" "" "" "" "a" "b_c" GraphTypeVersionedApp
          = some ("vapp_ns_a_b_c", NodeTypeApp)
      ∧ "a_b" ≠ "a" ∧ "c" ≠ "b_c")
    ∧ (NodeID "ns" "" "" "a_b_c" "x" "" GraphTypeVersionedApp
          = some ("vapp_ns_a_b_c", NodeTypeApp)
      ∧ "a_b_c" ≠ "" ∧ "x" ≠ "a") := by
  decide

/-- Equal identifiers of two tuples whose resolved namespaces contain no underscore: equal
kinds, equal resolved namespaces, and equal name fields for two identifiers built by the
same rule. -/
theorem NodeID_eq_id_rules (graphType id kind1 kind2 : String)
    (serviceNamespace1 service1 workloadNamespace1 workload1 app1 version1 : String)
    (serviceNamespace2 service2 workloadNamespace2 workload2 app2 version2 : String)
    (h1 : NodeID serviceNamespace1 service1 workloadNamespace1 workload1 app1 version1 graphType
      = some (id, kind1))
    (h2 : NodeID serviceNamespace2 service2 workloadNamespace2 workload2 app2 version2 graphType
      = some (id, kind2))
    (hn1 : '_' ∉ (resolveNamespace serviceNamespace1 workloadNamespace1).toList)
    (hn2 : '_' ∉ (resolveNamespace serviceNamespace2 workloadNamespace2).toList) :
    kind1 = kind2
    ∧ resolveNamespace serviceNamespace1 workloadNamespace1
        = resolveNamespace serviceNamespace2 workloadNamespace2
    ∧ (kind1 = NodeTypeWorkload → workload1 = workload2)
    ∧ (kind1 = NodeTypeService → service1 = service2)
    ∧ (kind1 = NodeTypeApp →
        ((graphType ≠ GraphTypeVersionedApp ∨ (IsOK workload1 = false ∧ IsOK version1 = false))
          → app1 = app2)
        ∧ (graphType = GraphTypeVersionedApp → IsOK workload1 = true → IsOK workload2 = true →
            workload1 = workload2)
        ∧ (graphType = GraphTypeVersionedApp → IsOK workload1 = false →
            IsOK workload2 = false → IsOK version1 = true →
            '_' ∉ app1.toList → '_' ∉ app2.toList → app1 = app2 ∧ version1 = version2)) := by
  have c1 := NodeID_some_cases _ _ _ _ _ _ _ _ _ h1
  have c2 := NodeID_some_cases _ _ _ _ _ _ _ _ _ h2
  simp only [String.toList] at hn1 hn2 ⊢
  rcases c1 with ⟨rfl, e1, n1⟩ | ⟨rfl, e1⟩ | ⟨rfl, e1⟩ | ⟨rfl, e1, g1⟩ | ⟨rfl, e1, g1, o1⟩ |
      ⟨rfl, e1, g1, o1, p1⟩ <;>
    rcases c2 with ⟨rfl, e2, n2⟩ | ⟨rfl, e2⟩ | ⟨rfl, e2⟩ | ⟨rfl, e2, g2⟩ | ⟨rfl, e2, g2, o2⟩ |
      ⟨rfl, e2, g2, o2, p2⟩ <;>
    rw [e1] at e2 <;>
    have hd := congrArg String.data e2 <;>
    simp [String.data_append] at hd
  · refine ⟨rfl, n1.trans n2.symm, ?_, ?_, ?_⟩ <;> intro hk <;> exact absurd hk (by decide)
  all_goals
    obtain ⟨hns, hr⟩ := append_underscore_cancel _ _ _ _ hn1 hn2 hd
    refine ⟨rfl, String.ext hns, ?_, ?_, ?_⟩
  all_goals intro hk
  all_goals first
    | exact absurd hk (by decide)
    | exact String.ext hr
    | skip
  all_goals refine ⟨fun c => ?_, fun c1 c2 c3 => ?_, fun c1 c2 c3 c4 c5 c6 => ?_⟩
  all_goals first
    | exact String.ext hr
    | exact ⟨String.ext (append_underscore_cancel _ _ _ _ c5 c6 hr).1,
        String.ext (append_underscore_cancel _ _ _ _ c5 c6 hr).2⟩
    | (exfalso; simp_all)


/-- Two lists that agree after splitting each at its last underscore: the parts before and
after the underscore agree. -/
theorem append_underscore_cancel_right (l1 l2 r1 r2 : List Char) (h1 : '_' ∉ r1)
    (h2 : '_' ∉ r2) (h : l1 ++ '_' :: r1 = l2 ++ '_' :: r2) : l1 = l2 ∧ r1 = r2 := by
  have hrev := congrArg List.reverse h
  simp only [List.reverse_append, List.reverse_cons, List.append_assoc, List.singleton_append]
    at hrev
  have hc := append_underscore_cancel r1.reverse r2.reverse l1.reverse l2.reverse
    (by simpa using h1) (by simpa using h2) hrev
  exact ⟨List.reverse_injective hc.2, List.reverse_injective hc.1⟩

/-- Equal identifiers of kind app, for underscore-free resolved namespaces: both are app_
identifiers or both are vapp_ identifiers, and two vapp_ identifiers have the same key, the
key of a tuple being its workload when that is valid and app, underscore, version
otherwise. -/
theorem NodeID_vapp_key (graphType id kind1 kind2 : String)
    (serviceNamespace1 service1 workloadNamespace1 workload1 app1 version1 : String)
    (serviceNamespace2 service2 workloadNamespace2 workload2 app2 version2 : String)
    (h1 : NodeID serviceNamespace1 service1 workloadNamespace1 workload1 app1 version1 graphType
      = some (id, kind1))
    (h2 : NodeID serviceNamespace2 service2 workloadNamespace2 workload2 app2 version2 graphType
      = some (id, kind2))
    (hn1 : '_' ∉ (resolveNamespace serviceNamespace1 workloadNamespace1).data)
    (hn2 : '_' ∉ (resolveNamespace serviceNamespace2 workloadNamespace2).data)
    (hk : kind1 = NodeTypeApp) :
    ((graphType ≠ GraphTypeVersionedApp ∨ (IsOK workload1 = false ∧ IsOK version1 = false)) →
      (graphType ≠ GraphTypeVersionedApp ∨ (IsOK workload2 = false ∧ IsOK version2 = false)))
    ∧ (graphType = GraphTypeVersionedApp → (IsOK workload1 = true ∨ IsOK version1 = true) →
      (IsOK workload2 = true ∨ IsOK version2 = true)
      ∧ (if IsOK workload1 = true then workload1 else app1 ++ "_" ++ version1)
          = (if IsOK workload2 = true then workload2 else app2 ++ "_" ++ version2)) := by
  have c1 := NodeID_some_cases _ _ _ _ _ _ _ _ _ h1
  have c2 := NodeID_some_cases _ _ _ _ _ _ _ _ _ h2
  rcases c1 with ⟨rfl, e1, n1⟩ | ⟨rfl, e1⟩ | ⟨rfl, e1⟩ | ⟨rfl, e1, g1⟩ | ⟨rfl, e1, g1, o1⟩ |
      ⟨rfl, e1, g1, o1, p1⟩ <;>
    rcases c2 with ⟨rfl, e2, n2⟩ | ⟨rfl, e2⟩ | ⟨rfl, e2⟩ | ⟨rfl, e2, g2⟩ | ⟨rfl, e2, g2, o2⟩ |
      ⟨rfl, e2, g2, o2, p2⟩ <;>
    rw [e1] at e2 <;>
    have hd := congrArg String.data e2 <;>
    simp [String.data_append] at hd
  all_goals first
    | exact absurd hk (by decide)
    | skip
  all_goals
    obtain ⟨hns, hr⟩ := append_underscore_cancel _ _ _ _ hn1 hn2 hd
    refine ⟨fun c => ?_, fun c1 c2 => ?_⟩
  all_goals first
    | exact g2
    | (refine ⟨Or.inl o2, ?_⟩
       simp only [o1, o2, ↓reduceIte, Bool.false_eq_true]
       apply String.ext
       simpa [String.data_append] using hr)
    | (refine ⟨Or.inr p2, ?_⟩
       simp only [o1, o2, ↓reduceIte, Bool.false_eq_true]
       apply String.ext
       simpa [String.data_append] using hr)
    | (exfalso; simp_all)

/-- C9 (amended): for every graph variant and any two tuples on which `NodeID` returns and
whose resolved namespaces contain no underscore, equal identifiers imply equal node kinds,
equal resolved namespaces and equal name fields: the workloads for kind workload, the
services for kind service, and for kind app the apps of two app_ identifiers and the keys of
two vapp_ identifiers, an app_ identifier never being equal to a vapp_ one.  The key of a
vapp_ identifier is the workload when it is valid and app, underscore, version otherwise: so
two valid workloads are equal, a valid workload without underscore forces the other tuple to
have the same valid workload, and with both workloads invalid app and version are equal when
both apps, or both versions, contain no underscore. -/
theorem NodeID_no_collision (graphType id kind1 kind2 : String)
    (serviceNamespace1 service1 workloadNamespace1 workload1 app1 version1 : String)
    (serviceNamespace2 service2 workloadNamespace2 workload2 app2 version2 : String)
    (h1 : NodeID serviceNamespace1 service1 workloadNamespace1 workload1 app1 version1 graphType
      = some (id, kind1))
    (h2 : NodeID serviceNamespace2 service2 workloadNamespace2 workload2 app2 version2 graphType
      = some (id, kind2))
    (hn1 : '_' ∉ (resolveNamespace serviceNamespace1 workloadNamespace1).toList)
    (hn2 : '_' ∉ (resolveNamespace serviceNamespace2 workloadNamespace2).toList) :
    kind1 = kind2
    ∧ resolveNamespace serviceNamespace1 workloadNamespace1
        = resolveNamespace serviceNamespace2 workloadNamespace2
    ∧ (kind1 = NodeTypeWorkload → workload1 = workload2)
    ∧ (kind1 = NodeTypeService → service1 = service2)
    ∧ (kind1 = NodeTypeApp →
        ((graphType ≠ GraphTypeVersionedApp ∨ (IsOK workload1 = false ∧ IsOK version1 = false))
          → app1 = app2
            ∧ (graphType ≠ GraphTypeVersionedApp
                ∨ (IsOK workload2 = false ∧ IsOK version2 = false)))
        ∧ (graphType = GraphTypeVersionedApp → IsOK workload1 = true → IsOK workload2 = true →
            workload1 = workload2)
        ∧ (graphType = GraphTypeVersionedApp → IsOK workload1 = false →
            IsOK workload2 = false → IsOK version1 = true →
            '_' ∉ app1.toList → '_' ∉ app2.toList → app1 = app2 ∧ version1 = version2)
        ∧ (graphType = GraphTypeVersionedApp →
            (IsOK workload1 = true ∨ IsOK version1 = true) →
            (IsOK workload2 = true ∨ IsOK version2 = true)
            ∧ (if IsOK workload1 = true then workload1 else app1 ++ "_" ++ version1)
                = (if IsOK workload2 = true then workload2 else app2 ++ "_" ++ version2))
        ∧ (graphType = GraphTypeVersionedApp → IsOK workload1 = true →
            '_' ∉ workload1.toList → IsOK workload2 = true ∧ workload1 = workload2)
        ∧ (graphType = GraphTypeVersionedApp → IsOK workload2 = true →
            '_' ∉ workload2.toList → IsOK workload1 = true ∧ workload1 = workload2)
        ∧ (graphType = GraphTypeVersionedApp → IsOK workload1 = false →
            IsOK workload2 = false → IsOK version1 = true →
            '_' ∉ version1.toList → '_' ∉ version2.toList →
            app1 = app2 ∧ version1 = version2)) := by
  obtain ⟨hkind, hns, hW, hS, hApp⟩ :=
    NodeID_eq_id_rules graphType id kind1 kind2 _ _ _ _ _ _ _ _ _ _ _ _ h1 h2 hn1 hn2
  refine ⟨hkind, hns, hW, hS, fun hk => ?_⟩
  obtain ⟨r1, r2, r3⟩ := hApp hk
  have k12 := NodeID_vapp_key graphType id kind1 kind2 _ _ _ _ _ _ _ _ _ _ _ _ h1 h2 hn1 hn2 hk
  have k21 := NodeID_vapp_key graphType id kind2 kind1 _ _ _ _ _ _ _ _ _ _ _ _ h2 h1 hn2 hn1
    (hkind ▸ hk)
  have hmem : ∀ x a v : String, x = a ++ "_" ++ v → '_' ∈ x.toList := by
    intro x a v hx
    subst hx
    simp [String.toList, String.data_append]
  refine ⟨fun c => ⟨r1 c, k12.1 c⟩, r2, r3, k12.2, ?_, ?_, ?_⟩
  · intro hg ho hu
    obtain ⟨_, hkey⟩ := k12.2 hg (Or.inl ho)
    rw [if_pos ho] at hkey
    cases ho2 : IsOK workload2
    · rw [ho2] at hkey
      exact absurd (hmem _ _ _ hkey) hu
    · rw [ho2] at hkey
      exact ⟨rfl, hkey⟩
  · intro hg ho hu
    obtain ⟨_, hkey⟩ := k21.2 hg (Or.inl ho)
    rw [if_pos ho] at hkey
    cases ho1 : IsOK workload1
    · rw [ho1] at hkey
      exact absurd (hmem _ _ _ hkey) hu
    · rw [ho1] at hkey
      exact ⟨rfl, hkey.symm⟩
  · intro hg ho1 ho2 hv1 hu1 hu2
    obtain ⟨_, hkey⟩ := k12.2 hg (Or.inr hv1)
    rw [ho1, ho2] at hkey
    have hd := congrArg String.data hkey
    simp only [Bool.false_eq_true, ↓reduceIte, String.data_append, List.append_assoc] at hd
    have hc := append_underscore_cancel_right app1.data app2.data version1.data version2.data
      hu1 hu2 hd
    exact ⟨String.ext hc.1, String.ext hc.2⟩

/-- C9 (witness): two workload-variant tuples that differ in every field that the identifier
"wl_billing_api" does not use, and two versionedApp tuples with the valid workload "api-v2",
which contains no underscore. -/
theorem NodeID_no_collision_witness :
    NodeID "billing" "x" "" "api" "a1" "v1" "workload" = some ("wl_billing_api", "workload")
    ∧ NodeID "other" "y" "billing" "api" "a2" "v2" "workload"
        = some ("wl_billing_api", "workload")
    ∧ '_' ∉ (resolveNamespace "billing" "").toList
    ∧ '_' ∉ (resolveNamespace "other" "billing").toList
    ∧ resolveNamespace "billing" "" = resolveNamespace "other" "billing"
    ∧ NodeID "billing" "" "" "api-v2" "api" "v2" "versionedApp"
        = some ("vapp_billing_api-v2", "app")
    ∧ NodeID "billing" "db" "" "api-v2" "web" "" "versionedApp"
        = some ("vapp_billing_api-v2", "app")
    ∧ (IsOK "api-v2" = true ∧ ("api-v2" : String) = "api-v2") :=
  ⟨by decide, by decide, by decide, by decide,
   (NodeID_no_collision "workload" "wl_billing_api" "workload" "workload"
      "billing" "x" "" "api" "a1" "v1" "other" "y" "billing" "api" "a2" "v2"
      (by decide) (by decide) (by decide) (by decide)).2.1,
   by decide, by decide,
   ((NodeID_no_collision "versionedApp" "vapp_billing_api-v2" "app" "app"
      "billing" "" "" "api-v2" "api" "v2" "billing" "db" "" "api-v2" "web" ""
      (by decide) (by decide) (by decide) (by decide)).2.2.2.2 rfl).2.2.2.2.1
      rfl (by decide) (by decide)⟩

/-! ## Egress detection in `NewNodeExplicit` -/

/-- C10: the Metadata of the node returned by `NewNodeExplicit` holds the is-egress-cluster
flag, set to true, exactly when nodeType is service and serviceName is "PassthroughCluster" or
"BlackHoleCluster"; it then has that single entry, and in every other case it is empty. -/
theorem NewNodeExplicit_metadata (id namespace_ workload app version serviceName nodeType
    graphType : String) :
    ((NewNodeExplicit id namespace_ workload app version serviceName nodeType
          graphType).Metadata.get? IsEgressCluster = some (MetadataValue.boolean true) ↔
        (nodeType = "service"
          ∧ (serviceName = "PassthroughCluster" ∨ serviceName = "BlackHoleCluster")))
    ∧ (NewNodeExplicit id namespace_ workload app version serviceName nodeType
          graphType).Metadata
        = (if nodeType = "service"
              ∧ (serviceName = "PassthroughCluster" ∨ serviceName = "BlackHoleCluster") then
            [(IsEgressCluster, MetadataValue.boolean true)]
          else []) := by
  have hmd : (NewNodeExplicit id namespace_ workload app version serviceName nodeType
          graphType).Metadata
        = (if nodeType = "service"
              ∧ (serviceName = "PassthroughCluster" ∨ serviceName = "BlackHoleCluster") then
            [(IsEgressCluster, MetadataValue.boolean true)]
          else []) := by
    unfold NewNodeExplicit
    simp only [NodeTypeWorkload, NodeTypeApp, NodeTypeService, passthroughCluster,
      blackHoleCluster]
    by_cases hw : nodeType = "workload"
    · subst hw; simp
    · by_cases ha : nodeType = "app"
      · subst ha
        by_cases hg : graphType = GraphTypeVersionedApp <;> simp [hg]
      · by_cases hs : nodeType = "service"
        · subst hs
          by_cases hc : serviceName = "PassthroughCluster" ∨ serviceName = "BlackHoleCluster"
          · simp [hc, Metadata.set]
          · simp [hc]
        · simp [hw, ha, hs]
  refine ⟨?_, hmd⟩
  rw [hmd]
  by_cases hc : nodeType = "service"
      ∧ (serviceName = "PassthroughCluster" ∨ serviceName = "BlackHoleCluster")
  · simp [hc, Metadata.get?]
  · simp [hc, Metadata.get?]

/-! ## Field normalisation in `NewNodeExplicit` -/

/-- The node built for node type workload. -/
theorem NewNodeExplicit_workload (id namespace_ workload app version serviceName
    graphType : String) :
    NewNodeExplicit id namespace_ workload app version serviceName NodeTypeWorkload graphType
      = { ID := id, NodeType := NodeTypeWorkload, Namespace := namespace_, Workload := workload,
          App := if app = "unknown" then "" else app,
          Version := if version = "unknown" then "" else version,
          Service := "", Edges := [], Metadata := [] } := by
  simp [NewNodeExplicit, Unknown]

/-- The node built for node type app. -/
theorem NewNodeExplicit_app (id namespace_ workload app version serviceName
    graphType : String) :
    NewNodeExplicit id namespace_ workload app version serviceName NodeTypeApp graphType
      = { ID := id, NodeType := NodeTypeApp, Namespace := namespace_,
          Workload := if graphType = "versionedApp" then workload else "",
          App := app,
          Version := if graphType = "versionedApp" then version else "",
          Service := "", Edges := [], Metadata := [] } := by
  have h : NodeTypeApp ≠ NodeTypeWorkload := by decide
  by_cases hg : graphType = "versionedApp" <;>
    simp [NewNodeExplicit, h, hg, GraphTypeVersionedApp]

/-- The node built for node type service. -/
theorem NewNodeExplicit_service (id namespace_ workload app version serviceName
    graphType : String) :
    NewNodeExplicit id namespace_ workload app version serviceName NodeTypeService graphType
      = { ID := id, NodeType := NodeTypeService, Namespace := namespace_, Workload := "",
          App := "", Version := "", Service := serviceName, Edges := [],
          Metadata :=
            if serviceName = "PassthroughCluster" ∨ serviceName = "BlackHoleCluster" then
              [(IsEgressCluster, MetadataValue.boolean true)]
            else [] } := by
  have h1 : NodeTypeService ≠ NodeTypeWorkload := by decide
  have h2 : NodeTypeService ≠ NodeTypeApp := by decide
  by_cases hc : serviceName = "PassthroughCluster" ∨ serviceName = "BlackHoleCluster" <;>
    simp [NewNodeExplicit, h1, h2, hc, passthroughCluster, blackHoleCluster, Metadata.set]

/-- The node built for a node type that the switch does not list. -/
theorem NewNodeExplicit_other (id namespace_ workload app version serviceName nodeType
    graphType : String) (hw : nodeType ≠ NodeTypeWorkload) (ha : nodeType ≠ NodeTypeApp)
    (hs : nodeType ≠ NodeTypeService) :
    NewNodeExplicit id namespace_ workload app version serviceName nodeType graphType
      = { ID := id, NodeType := nodeType, Namespace := namespace_, Workload := workload,
          App := app, Version := version, Service := serviceName, Edges := [],
          Metadata := [] } := by
  simp [NewNodeExplicit, hw, ha, hs]

/-- C11: `NewNodeExplicit` returns ID, NodeType and Namespace as given and no edges; for kind
workload Service is empty, Workload is kept and App and Version are emptied when they are
"unknown"; for kind app Service is empty, App is kept and Workload and Version are kept only
for graphType versionedApp; for kind service App, Workload and Version are empty and Service
is kept; for any other kind every field is kept. -/
theorem NewNodeExplicit_fields (id namespace_ workload app version serviceName nodeType
    graphType : String) :
    (NewNodeExplicit id namespace_ workload app version serviceName nodeType graphType).ID = id
    ∧ (NewNodeExplicit id namespace_ workload app version serviceName nodeType
        graphType).NodeType = nodeType
    ∧ (NewNodeExplicit id namespace_ workload app version serviceName nodeType
        graphType).Namespace = namespace_
    ∧ (NewNodeExplicit id namespace_ workload app version serviceName nodeType
        graphType).Edges = []
    ∧ (nodeType = "workload" →
        (NewNodeExplicit id namespace_ workload app version serviceName nodeType
            graphType).Service = ""
        ∧ (NewNodeExplicit id namespace_ workload app version serviceName nodeType
            graphType).Workload = workload
        ∧ (NewNodeExplicit id namespace_ workload app version serviceName nodeType
            graphType).App = (if app = "unknown" then "" else app)
        ∧ (NewNodeExplicit id namespace_ workload app version serviceName nodeType
            graphType).Version = (if version = "unknown" then "" else version))
    ∧ (nodeType = "app" →
        (NewNodeExplicit id namespace_ workload app version serviceName nodeType
            graphType).Service = ""
        ∧ (NewNodeExplicit id namespace_ workload app version serviceName nodeType
            graphType).App = app
        ∧ (NewNodeExplicit id namespace_ workload app version serviceName nodeType
            graphType).Workload = (if graphType = "versionedApp" then workload else "")
        ∧ (NewNodeExplicit id namespace_ workload app version serviceName nodeType
            graphType).Version = (if graphType = "versionedApp" then version else ""))
    ∧ (nodeType = "service" →
        (NewNodeExplicit id namespace_ workload app version serviceName nodeType
            graphType).App = ""
        ∧ (NewNodeExplicit id namespace_ workload app version serviceName nodeType
            graphType).Workload = ""
        ∧ (NewNodeExplicit id namespace_ workload app version serviceName nodeType
            graphType).Version = ""
        ∧ (NewNodeExplicit id namespace_ workload app version serviceName nodeType
            graphType).Service = serviceName)
    ∧ (nodeType ≠ "workload" → nodeType ≠ "app" → nodeType ≠ "service" →
        (NewNodeExplicit id namespace_ workload app version serviceName nodeType
            graphType).Workload = workload
        ∧ (NewNodeExplicit id namespace_ workload app version serviceName nodeType
            graphType).App = app
        ∧ (NewNodeExplicit id namespace_ workload app version serviceName nodeType
            graphType).Version = version
        ∧ (NewNodeExplicit id namespace_ workload app version serviceName nodeType
            graphType).Service = serviceName) := by
  refine ⟨rfl, rfl, rfl, rfl, ?_, ?_, ?_, ?_⟩
  · intro h
    subst h
    rw [show ("workload" : String) = NodeTypeWorkload from rfl, NewNodeExplicit_workload]
    exact ⟨rfl, rfl, rfl, rfl⟩
  · intro h
    subst h
    rw [show ("app" : String) = NodeTypeApp from rfl, NewNodeExplicit_app]
    exact ⟨rfl, rfl, rfl, rfl⟩
  · intro h
    subst h
    rw [show ("service" : String) = NodeTypeService from rfl, NewNodeExplicit_service]
    exact ⟨rfl, rfl, rfl, rfl⟩
  · intro hw ha hs
    rw [NewNodeExplicit_other _ _ _ _ _ _ _ _ hw ha hs]
    exact ⟨rfl, rfl, rfl, rfl⟩

/-- C11 (witness): a workload node with an "unknown" app label, an app node of the app and of
the versionedApp variant, a service node, and a node of kind unknown. -/
theorem NewNodeExplicit_fields_witness :
    (NewNodeExplicit "i" "ns" "w" "unknown" "v1" "s" "workload" "workload").App = ""
    ∧ (NewNodeExplicit "i" "ns" "w" "unknown" "v1" "s" "workload" "workload").Version = "v1"
    ∧ (NewNodeExplicit "i" "ns" "w" "a" "v1" "s" "app" "app").Workload = ""
    ∧ (NewNodeExplicit "i" "ns" "w" "a" "v1" "s" "app" "versionedApp").Workload = "w"
    ∧ (NewNodeExplicit "i" "ns" "w" "a" "v1" "s" "service" "app").Service = "s"
    ∧ (NewNodeExplicit "i" "ns" "w" "a" "v1" "s" "unknown" "app").Service = "s" :=
  ⟨((NewNodeExplicit_fields "i" "ns" "w" "unknown" "v1" "s" "workload" "workload").2.2.2.2.1
      rfl).2.2.1,
   ((NewNodeExplicit_fields "i" "ns" "w" "unknown" "v1" "s" "workload" "workload").2.2.2.2.1
      rfl).2.2.2,
   ((NewNodeExplicit_fields "i" "ns" "w" "a" "v1" "s" "app" "app").2.2.2.2.2.1 rfl).2.2.1,
   ((NewNodeExplicit_fields "i" "ns" "w" "a" "v1" "s" "app" "versionedApp").2.2.2.2.2.1
      rfl).2.2.1,
   ((NewNodeExplicit_fields "i" "ns" "w" "a" "v1" "s" "service" "app").2.2.2.2.2.2.1 rfl).2.2.2,
   ((NewNodeExplicit_fields "i" "ns" "w" "a" "v1" "s" "unknown" "app").2.2.2.2.2.2.2
      (by decide) (by decide) (by decide)).2.2.2⟩

/-- C12: normalisation is idempotent: building a node again from the fields of a node that
`NewNodeExplicit` returned, with the same graphType, gives that node back, Metadata
included. -/
theorem NewNodeExplicit_idempotent (id namespace_ workload app version serviceName nodeType
    graphType : String) :
    NewNodeExplicit
        (NewNodeExplicit id namespace_ workload app version serviceName nodeType graphType).ID
        (NewNodeExplicit id namespace_ workload app version serviceName nodeType
          graphType).Namespace
        (NewNodeExplicit id namespace_ workload app version serviceName nodeType
          graphType).Workload
        (NewNodeExplicit id namespace_ workload app version serviceName nodeType graphType).App
        (NewNodeExplicit id namespace_ workload app version serviceName nodeType
          graphType).Version
        (NewNodeExplicit id namespace_ workload app version serviceName nodeType
          graphType).Service
        (NewNodeExplicit id namespace_ workload app version serviceName nodeType
          graphType).NodeType
        graphType
      = NewNodeExplicit id namespace_ workload app version serviceName nodeType graphType := by
  by_cases hw : nodeType = NodeTypeWorkload
  · subst hw
    simp only [NewNodeExplicit_workload]
    by_cases ha : app = "unknown" <;> by_cases hv : version = "unknown" <;> simp [ha, hv]
  · by_cases ha : nodeType = NodeTypeApp
    · subst ha
      simp only [NewNodeExplicit_app]
      by_cases hg : graphType = "versionedApp" <;> simp [hg]
    · by_cases hs : nodeType = NodeTypeService
      · subst hs
        simp only [NewNodeExplicit_service]
      · simp only [NewNodeExplicit_other _ _ _ _ _ _ _ _ hw ha hs]

/-! ## Nodes returned by `NewNode` -/

/-- The namespace that `nodeID` and `NewNode` use, as a choice on the workload namespace. -/
theorem resolveNamespace_eq (serviceNamespace workloadNamespace : String) :
    resolveNamespace serviceNamespace workloadNamespace
      = if IsOK workloadNamespace = true then workloadNamespace else serviceNamespace := by
  unfold resolveNamespace
  cases IsOK workloadNamespace <;> simp

/-- The kind that `NodeID` returns is one of the four node types, and the field that the
kind is named after is usable: a workload kind has a valid workload, an app kind a valid
app, a service kind a non-empty service. -/
theorem NodeID_kind_valid (serviceNamespace service workloadNamespace workload app version
    graphType id kind : String)
    (h : NodeID serviceNamespace service workloadNamespace workload app version graphType
      = some (id, kind)) :
    kind = NodeTypeUnknown
    ∨ (kind = NodeTypeService ∧ service ≠ "")
    ∨ (kind = NodeTypeWorkload ∧ IsOK workload = true)
    ∨ (kind = NodeTypeApp ∧ IsOK app = true) := by
  unfold NodeID nodeID at h
  simp only [Unknown] at h
  by_cases h1 : "unknown" = resolveNamespace serviceNamespace workloadNamespace
      ∧ "unknown" = workload ∧ "unknown" = app ∧ service = ""
  · rw [if_pos h1] at h
    simp only [Option.some.injEq, Prod.mk.injEq] at h
    exact Or.inl h.2.symm
  · rw [if_neg h1] at h
    by_cases h2 : "unknown" = workload ∧ "unknown" = app ∧ "unknown" = service
    · rw [if_pos h2] at h
      simp only [Option.some.injEq, Prod.mk.injEq] at h
      refine Or.inr (Or.inl ⟨h.2.symm, ?_⟩)
      rw [← h2.2.2]
      decide
    · rw [if_neg h2] at h
      have hs' := IsOK_iff service
      cases hw : IsOK workload <;> cases ha : IsOK app <;> cases hs : IsOK service <;>
        by_cases hg : graphType = GraphTypeWorkload ∨ graphType = GraphTypeService <;>
        simp [hw, ha, hs, hg] at h <;> (try split_ifs at h) <;>
        obtain ⟨rfl, rfl⟩ := h <;>
        simp_all [NodeTypeApp, NodeTypeService, NodeTypeWorkload, NodeTypeUnknown]

/-- C13: a node returned by `NewNode` has the fields of its kind populated and the others
cleared: kind workload has a valid Workload, an empty Service, and App and Version different
from "unknown"; kind app has a valid App and an empty Service; kind service has a non-empty
Service and empty App, Workload and Version. -/
theorem NewNode_fields_of_kind (serviceNamespace serviceName workloadNamespace workload app
    version graphType : String) (n : Node)
    (h : NewNode serviceNamespace serviceName workloadNamespace workload app version graphType
      = some n) :
    (n.NodeType = "workload" →
      IsOK n.Workload = true ∧ n.Service = "" ∧ n.App ≠ "unknown" ∧ n.Version ≠ "unknown")
    ∧ (n.NodeType = "app" → IsOK n.App = true ∧ n.Service = "")
    ∧ (n.NodeType = "service" →
      n.Service ≠ "" ∧ n.App = "" ∧ n.Workload = "" ∧ n.Version = "") := by
  unfold NewNode at h
  cases hN : NodeID serviceNamespace serviceName workloadNamespace workload app version
      graphType with
  | none => simp [hN] at h
  | some r =>
    obtain ⟨id, kind⟩ := r
    simp only [hN, Option.some.injEq] at h
    subst h
    rcases NodeID_kind_valid _ _ _ _ _ _ _ _ _ hN with rfl | ⟨rfl, hv⟩ | ⟨rfl, hv⟩ | ⟨rfl, hv⟩
    · have e := NewNodeExplicit_other id (resolveNamespace serviceNamespace workloadNamespace)
        workload app version serviceName NodeTypeUnknown graphType (by decide) (by decide)
        (by decide)
      rw [e]
      refine ⟨?_, ?_, ?_⟩ <;> simp [NodeTypeUnknown]
    · rw [NewNodeExplicit_service]
      refine ⟨?_, ?_, ?_⟩
      · simp [NodeTypeService]
      · simp [NodeTypeService]
      · intro _; exact ⟨hv, rfl, rfl, rfl⟩
    · rw [NewNodeExplicit_workload]
      refine ⟨?_, ?_, ?_⟩
      · intro _
        refine ⟨hv, rfl, ?_, ?_⟩
        · show (if app = "unknown" then "" else app) ≠ "unknown"
          split_ifs with hc
          · decide
          · exact hc
        · show (if version = "unknown" then "" else version) ≠ "unknown"
          split_ifs with hc
          · decide
          · exact hc
      · simp [NodeTypeWorkload]
      · simp [NodeTypeWorkload]
    · rw [NewNodeExplicit_app]
      refine ⟨?_, ?_, ?_⟩
      · simp [NodeTypeApp]
      · intro _; exact ⟨hv, rfl⟩
      · simp [NodeTypeApp]

/-- C13 (witness): the workload node of a tuple whose app label is "unknown". -/
theorem NewNode_fields_of_kind_witness :
    NewNode "billing" "db" "" "db-v1" "unknown" "v1" "workload"
        = some { ID := "wl_billing_db-v1", NodeType := "workload", Namespace := "billing",
                 Workload := "db-v1", App := "", Version := "v1", Service := "", Edges := [],
                 Metadata := [] }
    ∧ IsOK "db-v1" = true ∧ ("" : String) ≠ "unknown" ∧ ("v1" : String) ≠ "unknown" :=
  ⟨by decide,
   ((NewNode_fields_of_kind "billing" "db" "" "db-v1" "unknown" "v1" "workload"
      { ID := "wl_billing_db-v1", NodeType := "workload", Namespace := "billing",
        Workload := "db-v1", App := "", Version := "v1", Service := "", Edges := [],
        Metadata := [] } (by decide)).1 rfl).1,
   ((NewNode_fields_of_kind "billing" "db" "" "db-v1" "unknown" "v1" "workload"
      { ID := "wl_billing_db-v1", NodeType := "workload", Namespace := "billing",
        Workload := "db-v1", App := "", Version := "v1", Service := "", Edges := [],
        Metadata := [] } (by decide)).1 rfl).2.2.1,
   ((NewNode_fields_of_kind "billing" "db" "" "db-v1" "unknown" "v1" "workload"
      { ID := "wl_billing_db-v1", NodeType := "workload", Namespace := "billing",
        Workload := "db-v1", App := "", Version := "v1", Service := "", Edges := [],
        Metadata := [] } (by decide)).1 rfl).2.2.2⟩

/-- C14: when `NodeID` returns, `NewNode` on the same arguments returns a node whose ID and
NodeType are the result of `NodeID` and whose Namespace is workloadNamespace when that is
valid and serviceNamespace otherwise; that namespace is the one in the identifier, which is
one of the four prefixes followed by the namespace and an underscore, or "unknown_source"
for the namespace "unknown". -/
theorem NewNode_of_NodeID (serviceNamespace serviceName workloadNamespace workload app version
    graphType id kind : String)
    (h : NodeID serviceNamespace serviceName workloadNamespace workload app version graphType
      = some (id, kind)) :
    ∃ n : Node,
      NewNode serviceNamespace serviceName workloadNamespace workload app version graphType
        = some n
      ∧ n.ID = id ∧ n.NodeType = kind
      ∧ n.Namespace
          = (if IsOK workloadNamespace = true then workloadNamespace else serviceNamespace)
      ∧ ((kind = NodeTypeUnknown ∧ n.Namespace = "unknown" ∧ n.ID = "unknown_source")
        ∨ ∃ pre rest : String, pre ∈ ["svc_", "wl_", "app_", "vapp_"]
            ∧ n.ID = pre ++ (n.Namespace ++ "_" ++ rest)) := by
  refine ⟨NewNodeExplicit id (resolveNamespace serviceNamespace workloadNamespace) workload app
    version serviceName kind graphType, ?_, rfl, rfl, ?_, ?_⟩
  · simp [NewNode, h]
  · exact resolveNamespace_eq _ _
  · show (kind = NodeTypeUnknown
          ∧ resolveNamespace serviceNamespace workloadNamespace = "unknown"
          ∧ id = "unknown_source")
        ∨ ∃ pre rest : String, pre ∈ ["svc_", "wl_", "app_", "vapp_"]
            ∧ id = pre ++ (resolveNamespace serviceNamespace workloadNamespace ++ "_" ++ rest)
    rcases NodeID_some_cases _ _ _ _ _ _ _ _ _ h with
      ⟨hk, e, hn⟩ | ⟨_, e⟩ | ⟨_, e⟩ | ⟨_, e, _⟩ | ⟨_, e, _⟩ | ⟨_, e, _⟩
    · exact Or.inl ⟨hk, hn, e⟩
    · exact Or.inr ⟨"svc_", _, by simp, e⟩
    · exact Or.inr ⟨"wl_", _, by simp, e⟩
    · exact Or.inr ⟨"app_", _, by simp, e⟩
    · exact Or.inr ⟨"vapp_", _, by simp, e⟩
    · exact Or.inr ⟨"vapp_", _, by simp, e⟩

/-- C14 (witness): a tuple whose workload namespace is "unknown", so that the service
namespace is used. -/
theorem NewNode_of_NodeID_witness :
    NodeID "billing" "db" "unknown" "db-v1" "" "" "workload"
        = some ("wl_billing_db-v1", "workload")
    ∧ ∃ n : Node, NewNode "billing" "db" "unknown" "db-v1" "" "" "workload" = some n
        ∧ n.ID = "wl_billing_db-v1" ∧ n.NodeType = "workload" ∧ n.Namespace = "billing" := by
  refine ⟨by decide, ?_⟩
  obtain ⟨n, h1, h2, h3, h4, _⟩ :=
    NewNode_of_NodeID "billing" "db" "unknown" "db-v1" "" "" "workload" "wl_billing_db-v1"
      "workload" (by decide)
  exact ⟨n, h1, h2, h3, h4⟩

/-! ## Adding an edge -/

/-- The elements of a slice that is one element longer. -/
theorem Memory.elems_succ (m : Memory) (ptr len cap : Nat) :
    m.elems { ptr := ptr, len := len + 1, cap := cap }
      = m.elems { ptr := ptr, len := len, cap := cap } ++ [m.slots (ptr + len)] := by
  simp [Memory.elems, List.range_succ]

/-- The elements of a slice depend only on the slots that it covers. -/
theorem Memory.elems_congr (m m2 : Memory) (sl sl2 : Slice) (hl : sl2.len = sl.len)
    (h : ∀ i, i < sl.len → m2.slots (sl2.ptr + i) = m.slots (sl.ptr + i)) :
    m2.elems sl2 = m.elems sl := by
  unfold Memory.elems
  rw [hl]
  apply List.map_congr_left
  intro i hi
  exact h i (List.mem_range.1 hi)

/-- The effect of `append`: the result slice holds the old elements followed by the new one,
only slots change, and every slice of allocated memory that does not cover the slot written
in place keeps its elements. -/
theorem Memory.append_spec (growCap : Nat → Nat) (m : Memory) (sl : Slice) (p : EdgeRef) :
    (m.append growCap sl p).1.elems (m.append growCap sl p).2 = m.elems sl ++ [p]
    ∧ (m.append growCap sl p).1.nodes = m.nodes
    ∧ (m.append growCap sl p).1.edges = m.edges
    ∧ (∀ t : Slice, t.ptr + t.len ≤ m.nextSlot →
        (sl.cap ≤ sl.len ∨ sl.ptr + sl.len < t.ptr ∨ t.ptr + t.len ≤ sl.ptr + sl.len) →
        (m.append growCap sl p).1.elems t = m.elems t) := by
  by_cases hc : sl.len < sl.cap
  · have e : m.append growCap sl p
        = ({ m with slots := fun a => if a = sl.ptr + sl.len then p else m.slots a },
            { sl with len := sl.len + 1 }) := by
      simp [Memory.append, hc]
    rw [e]
    refine ⟨?_, rfl, rfl, ?_⟩
    · simp only [Memory.elems, List.range_succ, List.map_append, List.map_cons, List.map_nil]
      have hm : List.map (fun i => if sl.ptr + i = sl.ptr + sl.len then p
            else m.slots (sl.ptr + i)) (List.range sl.len)
          = List.map (fun i => m.slots (sl.ptr + i)) (List.range sl.len) := by
        apply List.map_congr_left
        intro i hi
        have hi2 := List.mem_range.1 hi
        have hne : sl.ptr + i ≠ sl.ptr + sl.len := by omega
        rw [if_neg hne]
      rw [hm, if_pos trivial]
    · intro t _ ht
      simp only [Memory.elems]
      apply List.map_congr_left
      intro i hi
      have hi2 := List.mem_range.1 hi
      have hne : t.ptr + i ≠ sl.ptr + sl.len := by omega
      rw [if_neg hne]
  · have e : m.append growCap sl p
        = ({ m with
              slots := fun a =>
                if a < m.nextSlot ∨ m.nextSlot + max (sl.len + 1) (growCap sl.cap) ≤ a then
                  m.slots a
                else if a < m.nextSlot + sl.len then m.slots (sl.ptr + (a - m.nextSlot))
                else if a = m.nextSlot + sl.len then p
                else 0
              nextSlot := m.nextSlot + max (sl.len + 1) (growCap sl.cap) },
            { ptr := m.nextSlot, len := sl.len + 1,
              cap := max (sl.len + 1) (growCap sl.cap) }) := by
      simp [Memory.append, hc]
    rw [e]
    refine ⟨?_, rfl, rfl, ?_⟩
    · simp only [Memory.elems, List.range_succ, List.map_append, List.map_cons, List.map_nil]
      have hm : List.map (fun i =>
            if m.nextSlot + i < m.nextSlot
                ∨ m.nextSlot + max (sl.len + 1) (growCap sl.cap) ≤ m.nextSlot + i then
              m.slots (m.nextSlot + i)
            else if m.nextSlot + i < m.nextSlot + sl.len then
              m.slots (sl.ptr + (m.nextSlot + i - m.nextSlot))
            else if m.nextSlot + i = m.nextSlot + sl.len then p
            else 0) (List.range sl.len)
          = List.map (fun i => m.slots (sl.ptr + i)) (List.range sl.len) := by
        apply List.map_congr_left
        intro i hi
        have hi2 := List.mem_range.1 hi
        have h1 : ¬ (m.nextSlot + i < m.nextSlot
            ∨ m.nextSlot + max (sl.len + 1) (growCap sl.cap) ≤ m.nextSlot + i) := by omega
        have h2 : m.nextSlot + i < m.nextSlot + sl.len := by omega
        rw [if_neg h1, if_pos h2, Nat.add_sub_cancel_left]
      have h1 : ¬ (m.nextSlot + sl.len < m.nextSlot
          ∨ m.nextSlot + max (sl.len + 1) (growCap sl.cap) ≤ m.nextSlot + sl.len) := by omega
      have h2 : ¬ (m.nextSlot + sl.len < m.nextSlot + sl.len) := by omega
      rw [hm, if_neg h1, if_neg h2, if_pos trivial]
    · intro t ht _
      simp only [Memory.elems]
      apply List.map_congr_left
      intro i hi
      have hi2 := List.mem_range.1 hi
      have h1 : t.ptr + i < m.nextSlot := by omega
      rw [if_pos (Or.inl h1)]

/-- C15 (counterexample): two calls that change the destination.  A node that adds an edge
to itself is the destination, and its Edges header changes from length 0 to length 1.  And
when the node structs at 1 and 2 are copies of each other, with one Edges header of length 3
and capacity 4, the edge that node 2 adds to node 3 becomes the fourth element of the Edges of
node 2, and the call of node 1 with destination 2 then overwrites that element. -/
theorem AddEdge_mutates_dest :
    ((AddEdge (fun c => 2 * c)
          { nodes := fun r => if r = 1 then some
              { ID := "wl_ns_a", NodeType := "workload", Namespace := "ns", Workload := "a",
                App := "", Version := "", Service := "",
                Edges := { ptr := 0, len := 0, cap := 0 }, Metadata := [] } else none
            slots := fun _ => 0, edges := fun _ => none, nextSlot := 0, nextEdge := 1 }
          1 1).map (fun r => (r.1.nodes 1).map (fun c => c.Edges))
        = some (some { ptr := 0, len := 1, cap := 1 }))
    ∧ ((AddEdge (fun c => 2 * c)
          { nodes := fun r => if r = 1 ∨ r = 2 then some
              { ID := "wl_ns_a", NodeType := "workload", Namespace := "ns", Workload := "a",
                App := "", Version := "", Service := "",
                Edges := { ptr := 0, len := 3, cap := 4 }, Metadata := [] }
              else if r = 3 then some
              { ID := "wl_ns_x", NodeType := "workload", Namespace := "ns", Workload := "x",
                App := "", Version := "", Service := "",
                Edges := { ptr := 0, len := 0, cap := 0 }, Metadata := [] } else none
            slots := fun a => if a < 3 then a + 1 else 0
            edges := fun q => if 1 ≤ q ∧ q ≤ 3 then some (NewEdge 1 3) else none
            nextSlot := 4, nextEdge := 4 }
          2 3).bind (fun a => (a.1.nodes 2).map (fun c => a.1.elems c.Edges))
        = some [1, 2, 3, 4])
    ∧ ((AddEdge (fun c => 2 * c)
          { nodes := fun r => if r = 1 ∨ r = 2 then some
              { ID := "wl_ns_a", NodeType := "workload", Namespace := "ns", Workload := "a",
                App := "", Version := "", Service := "",
                Edges := { ptr := 0, len := 3, cap := 4 }, Metadata := [] }
              else if r = 3 then some
              { ID := "wl_ns_x", NodeType := "workload", Namespace := "ns", Workload := "x",
                App := "", Version := "", Service := "",
                Edges := { ptr := 0, len := 0, cap := 0 }, Metadata := [] } else none
            slots := fun a => if a < 3 then a + 1 else 0
            edges := fun q => if 1 ≤ q ∧ q ≤ 3 then some (NewEdge 1 3) else none
            nextSlot := 4, nextEdge := 4 }
          2 3).bind (fun a => (AddEdge (fun c => 2 * c) a.1 1 2).bind
            (fun b => (b.1.nodes 2).map (fun c => b.1.elems c.Edges)))
        = some [1, 2, 3, 5]) := by
  decide

/-- C15 (amended): for a receiver `s` that points to a node and any destination `d`,
`AddEdge` returns the address of a newly allocated edge with Source `s`, Dest `d` and empty
Metadata; the Edges of `s` are then the previous elements, in order, followed by that
address; the other fields of `s`, the edges allocated before and the node struct at every
other address are unchanged; and every slice of allocated memory keeps its elements unless it
covers the spare slot behind the Edges of `s` that `append` writes in place. -/
theorem AddEdge_frame (growCap : Nat → Nat) (m : Memory) (s d : NodeRef) (cell : NodeCell)
    (hs : m.nodes s = some cell) :
    ∃ (m2 : Memory) (p : EdgeRef) (cell2 : NodeCell),
      AddEdge growCap m s d = some (m2, p)
      ∧ m2.nodes s = some cell2
      ∧ m2.elems cell2.Edges = m.elems cell.Edges ++ [p]
      ∧ m2.edges p = some { Source := s, Dest := d, Metadata := [] }
      ∧ p = m.nextEdge
      ∧ (∀ q : EdgeRef, q ≠ p → m2.edges q = m.edges q)
      ∧ cell2.ID = cell.ID ∧ cell2.NodeType = cell.NodeType
      ∧ cell2.Namespace = cell.Namespace ∧ cell2.Workload = cell.Workload
      ∧ cell2.App = cell.App ∧ cell2.Version = cell.Version
      ∧ cell2.Service = cell.Service ∧ cell2.Metadata = cell.Metadata
      ∧ (∀ r : NodeRef, r ≠ s → m2.nodes r = m.nodes r)
      ∧ (∀ t : Slice, t.ptr + t.len ≤ m.nextSlot →
          (cell.Edges.cap ≤ cell.Edges.len ∨ cell.Edges.ptr + cell.Edges.len < t.ptr
            ∨ t.ptr + t.len ≤ cell.Edges.ptr + cell.Edges.len) →
          m2.elems t = m.elems t) := by
  obtain ⟨a1, a2, a3, a4⟩ := Memory.append_spec growCap
    { m with
      edges := fun q => if q = m.nextEdge then some (NewEdge s d) else m.edges q
      nextEdge := m.nextEdge + 1 } cell.Edges m.nextEdge
  refine ⟨{ (Memory.append growCap
        { m with
          edges := fun q => if q = m.nextEdge then some (NewEdge s d) else m.edges q
          nextEdge := m.nextEdge + 1 } cell.Edges m.nextEdge).1 with
      nodes := fun x =>
        if x = s then some { cell with Edges := (Memory.append growCap
          { m with
            edges := fun q => if q = m.nextEdge then some (NewEdge s d) else m.edges q
            nextEdge := m.nextEdge + 1 } cell.Edges m.nextEdge).2 }
        else (Memory.append growCap
          { m with
            edges := fun q => if q = m.nextEdge then some (NewEdge s d) else m.edges q
            nextEdge := m.nextEdge + 1 } cell.Edges m.nextEdge).1.nodes x },
    m.nextEdge,
    { cell with Edges := (Memory.append growCap
        { m with
          edges := fun q => if q = m.nextEdge then some (NewEdge s d) else m.edges q
          nextEdge := m.nextEdge + 1 } cell.Edges m.nextEdge).2 },
    ?_, ?_, ?_, ?_, rfl, ?_, rfl, rfl, rfl, rfl, rfl, rfl, rfl, rfl, ?_, ?_⟩
  · simp only [AddEdge, hs]
  · simp
  · exact a1
  · show (Memory.append growCap _ cell.Edges m.nextEdge).1.edges m.nextEdge = _
    rw [a3]
    simp [NewEdge, NewMetadata]
  · intro q hq
    show (Memory.append growCap _ cell.Edges m.nextEdge).1.edges q = _
    rw [a3]
    simp [hq]
  · intro r hr
    show (if r = s then _ else (Memory.append growCap _ cell.Edges m.nextEdge).1.nodes r) = _
    rw [if_neg hr, a2]
  · intro t ht hcov
    exact a4 t ht hcov

/-- C15 (witness): the first edge of the node at address 1, to the node at address 2. -/
theorem AddEdge_frame_witness :
    ∃ (m2 : Memory) (p : EdgeRef) (cell2 : NodeCell),
      AddEdge (fun c => 2 * c)
          { nodes := fun r => if r = 1 ∨ r = 2 then some
              { ID := "wl_ns_a", NodeType := "workload", Namespace := "ns", Workload := "a",
                App := "", Version := "", Service := "",
                Edges := { ptr := 0, len := 0, cap := 0 }, Metadata := [] } else none
            slots := fun _ => 0, edges := fun _ => none, nextSlot := 0, nextEdge := 1 }
          1 2 = some (m2, p)
      ∧ m2.nodes 1 = some cell2
      ∧ m2.elems cell2.Edges = [p]
      ∧ m2.edges p = some { Source := 1, Dest := 2, Metadata := [] }
      ∧ p = 1
      ∧ m2.nodes 2 = some
          { ID := "wl_ns_a", NodeType := "workload", Namespace := "ns", Workload := "a",
            App := "", Version := "", Service := "",
            Edges := { ptr := 0, len := 0, cap := 0 }, Metadata := [] } := by
  obtain ⟨m2, p, cell2, b1, b2, b3, b4, b5, _, _, _, _, _, _, _, _, _, b6, _⟩ :=
    AddEdge_frame (fun c => 2 * c)
      { nodes := fun r => if r = 1 ∨ r = 2 then some
          { ID := "wl_ns_a", NodeType := "workload", Namespace := "ns", Workload := "a",
            App := "", Version := "", Service := "",
            Edges := { ptr := 0, len := 0, cap := 0 }, Metadata := [] } else none
        slots := fun _ => 0, edges := fun _ => none, nextSlot := 0, nextEdge := 1 }
      1 2
      { ID := "wl_ns_a", NodeType := "workload", Namespace := "ns", Workload := "a",
        App := "", Version := "", Service := "",
        Edges := { ptr := 0, len := 0, cap := 0 }, Metadata := [] } (by decide)
  exact ⟨m2, p, cell2, b1, b2, b3, b4, b5, by rw [b6 2 (by decide)]; decide⟩

/-! ## The namespace registry -/

/-- The loop of `GetIstioNamespaces` from any allocated slice: the names of the Istio entries
are appended in the order of the loop. -/
theorem GetIstioNamespaces_loop (entries : NamespaceInfoMap) (acc : List String) :
    entries.foldl
        (fun result entry =>
          if entry.2.IsIstio then StringSlice.append result entry.2.Name else result)
        (StringSlice.elems acc)
      = StringSlice.elems
          (acc ++ (entries.filter (fun entry => entry.2.IsIstio)).map (fun entry =>
            entry.2.Name)) := by
  induction entries generalizing acc with
  | nil => simp
  | cons entry rest ih =>
    cases hI : entry.2.IsIstio
    · simp [List.foldl_cons, hI, ih]
    · rw [List.foldl_cons]
      simp only [hI, if_true]
      have happ : StringSlice.append (StringSlice.elems acc) entry.2.Name
          = StringSlice.elems (acc ++ [entry.2.Name]) := rfl
      rw [happ, ih]
      simp [List.filter_cons, hI]

/-- C16: `GetIstioNamespaces` returns an allocated slice holding the Name of each entry whose
IsIstio is true, once per such entry, in the order of the loop; so for the entries of the map
listed in any order the result is that list of names up to order, its length is the number of
entries with IsIstio true, and it is the empty slice, not nil, when there is none. -/
theorem GetIstioNamespaces_spec (visited entries : NamespaceInfoMap)
    (hp : visited.Perm entries) :
    ∃ names : List String,
      GetIstioNamespaces visited = StringSlice.elems names
      ∧ names = (visited.filter (fun entry => entry.2.IsIstio)).map (fun entry => entry.2.Name)
      ∧ names.Perm
          ((entries.filter (fun entry => entry.2.IsIstio)).map (fun entry => entry.2.Name))
      ∧ names.length = entries.countP (fun entry => entry.2.IsIstio)
      ∧ (∀ name : String, name ∈ names ↔
          ∃ entry ∈ entries, entry.2.IsIstio = true ∧ entry.2.Name = name)
      ∧ ((∀ entry ∈ entries, entry.2.IsIstio = false) → names = []) := by
  have hperm : ((visited.filter (fun entry => entry.2.IsIstio)).map (fun entry =>
      entry.2.Name)).Perm
      ((entries.filter (fun entry => entry.2.IsIstio)).map (fun entry => entry.2.Name)) :=
    (hp.filter _).map _
  refine ⟨_, ?_, rfl, hperm, ?_, ?_, ?_⟩
  · unfold GetIstioNamespaces
    rw [GetIstioNamespaces_loop]
    simp
  · rw [hperm.length_eq, List.length_map, List.countP_eq_length_filter]
  · intro name
    rw [hperm.mem_iff]
    simp only [List.mem_map, List.mem_filter]
    constructor
    · rintro ⟨entry, ⟨hm, hi⟩, hn⟩
      exact ⟨entry, hm, hi, hn⟩
    · rintro ⟨entry, hm, hi, hn⟩
      exact ⟨entry, ⟨hm, hi⟩, hn⟩
  · intro hall
    have hv : ∀ entry ∈ visited, entry.2.IsIstio = false :=
      fun entry hm => hall entry (hp.mem_iff.1 hm)
    have : visited.filter (fun entry => entry.2.IsIstio) = [] := by
      rw [List.filter_eq_nil_iff]
      intro entry hm
      simp [hv entry hm]
    rw [this]
    rfl

/-- C16 (witness): a map of three namespaces, two of them in the mesh, visited in another
order than listed, and a map without a mesh namespace. -/
theorem GetIstioNamespaces_spec_witness :
    GetIstioNamespaces
        [("b", { Name := "b", Duration := 60, IsIstio := true }),
         ("c", { Name := "c", Duration := 60, IsIstio := false }),
         ("a", { Name := "a", Duration := 60, IsIstio := true })]
      = StringSlice.elems ["b", "a"]
    ∧ GetIstioNamespaces [("c", { Name := "c", Duration := 60, IsIstio := false })]
      = StringSlice.elems []
    ∧ ∃ names : List String,
        GetIstioNamespaces
            [("b", { Name := "b", Duration := 60, IsIstio := true }),
             ("c", { Name := "c", Duration := 60, IsIstio := false }),
             ("a", { Name := "a", Duration := 60, IsIstio := true })]
          = StringSlice.elems names
        ∧ names.length = 2 := by
  refine ⟨by decide, by decide, ?_⟩
  obtain ⟨names, h1, _, _, h4, _⟩ :=
    GetIstioNamespaces_spec
      [("b", { Name := "b", Duration := 60, IsIstio := true }),
       ("c", { Name := "c", Duration := 60, IsIstio := false }),
       ("a", { Name := "a", Duration := 60, IsIstio := true })]
      [("a", { Name := "a", Duration := 60, IsIstio := true }),
       ("b", { Name := "b", Duration := 60, IsIstio := true }),
       ("c", { Name := "c", Duration := 60, IsIstio := false })]
      (by decide)
  exact ⟨names, h1, by rw [h4]; decide⟩

/-! ## The service variant -/

/-- C17: the service variant is treated as the workload variant: `NodeID` with graphType
"service" has the same outcome, identifier and kind or failure, as with graphType "workload",
and `NewNode` returns equal nodes or fails in the same cases. -/
theorem service_variant_eq_workload (serviceNamespace service workloadNamespace workload app
    version : String) :
    NodeID serviceNamespace service workloadNamespace workload app version GraphTypeService
        = NodeID serviceNamespace service workloadNamespace workload app version
            GraphTypeWorkload
    ∧ NewNode serviceNamespace service workloadNamespace workload app version GraphTypeService
        = NewNode serviceNamespace service workloadNamespace workload app version
            GraphTypeWorkload := by
  have hid : NodeID serviceNamespace service workloadNamespace workload app version
      GraphTypeService
        = NodeID serviceNamespace service workloadNamespace workload app version
            GraphTypeWorkload := by
    unfold NodeID nodeID
    simp [GraphTypeService, GraphTypeWorkload]
  have hex : ∀ id ns kind : String,
      NewNodeExplicit id ns workload app version service kind GraphTypeService
        = NewNodeExplicit id ns workload app version service kind GraphTypeWorkload := by
    intro id ns kind
    have h1 : GraphTypeService ≠ GraphTypeVersionedApp := by decide
    have h2 : GraphTypeWorkload ≠ GraphTypeVersionedApp := by decide
    simp [NewNodeExplicit, h1, h2]
  refine ⟨hid, ?_⟩
  unfold NewNode
  rw [hid]
  cases NodeID serviceNamespace service workloadNamespace workload app version
      GraphTypeWorkload with
  | none => rfl
  | some r => simp [hex]

/-! ## The identifier determines the kind -/

/-- The first character of an identifier tells the kind: one function of the identifier gives
the kind returned by each of the three entry points. -/
theorem kind_of_identifier :
    ∃ f : String → String,
      (∀ serviceNamespace service workloadNamespace workload app version graphType id
          kind : String,
        NodeID serviceNamespace service workloadNamespace workload app version graphType
            = some (id, kind) → f id = kind)
      ∧ (∀ serviceNamespace service graphType id kind : String,
        InjectedServiceNodeID serviceNamespace service graphType = some (id, kind) →
          f id = kind)
      ∧ (∀ serviceNamespace service graphType id kind : String,
        RequestedServiceNodeID serviceNamespace service graphType = some (id, kind) →
          f id = kind) := by
  refine ⟨fun id =>
    match id.data with
    | 'u' :: _ => NodeTypeUnknown
    | 's' :: _ => NodeTypeService
    | 'r' :: _ => NodeTypeService
    | 'w' :: _ => NodeTypeWorkload
    | _ => NodeTypeApp, ?_, ?_, ?_⟩
  · intro sn s wn w a v g id kind h
    rcases NodeID_some_cases _ _ _ _ _ _ _ _ _ h with
      ⟨hk, e, _⟩ | ⟨hk, e⟩ | ⟨hk, e⟩ | ⟨hk, e, _⟩ | ⟨hk, e, _⟩ | ⟨hk, e, _⟩ <;>
      subst hk e <;> simp [String.data_append]
  · intro sn s g id kind h
    unfold InjectedServiceNodeID at h
    rw [nodeID_service_only] at h
    cases hs : IsOK s <;> simp [hs] at h
    obtain ⟨rfl, rfl⟩ := h
    simp [String.data_append]
  · intro sn s g id kind h
    unfold RequestedServiceNodeID at h
    rw [nodeID_service_only] at h
    cases hs : IsOK s <;> simp [hs] at h
    obtain ⟨rfl, rfl⟩ := h
    simp [String.data_append]

/-- C18: the identifier determines the node kind: for any two calls among `NodeID`,
`InjectedServiceNodeID` and `RequestedServiceNodeID`, on any tuples and graph variants, equal
identifiers come with equal kinds. -/
theorem identifier_determines_kind :
    (∀ sn1 s1 wn1 w1 a1 v1 g1 sn2 s2 wn2 w2 a2 v2 g2 id kind1 kind2 : String,
      NodeID sn1 s1 wn1 w1 a1 v1 g1 = some (id, kind1) →
      NodeID sn2 s2 wn2 w2 a2 v2 g2 = some (id, kind2) → kind1 = kind2)
    ∧ (∀ sn1 s1 wn1 w1 a1 v1 g1 sn2 s2 g2 id kind1 kind2 : String,
      NodeID sn1 s1 wn1 w1 a1 v1 g1 = some (id, kind1) →
      InjectedServiceNodeID sn2 s2 g2 = some (id, kind2) → kind1 = kind2)
    ∧ (∀ sn1 s1 wn1 w1 a1 v1 g1 sn2 s2 g2 id kind1 kind2 : String,
      NodeID sn1 s1 wn1 w1 a1 v1 g1 = some (id, kind1) →
      RequestedServiceNodeID sn2 s2 g2 = some (id, kind2) → kind1 = kind2)
    ∧ (∀ sn1 s1 g1 sn2 s2 g2 id kind1 kind2 : String,
      InjectedServiceNodeID sn1 s1 g1 = some (id, kind1) →
      InjectedServiceNodeID sn2 s2 g2 = some (id, kind2) → kind1 = kind2)
    ∧ (∀ sn1 s1 g1 sn2 s2 g2 id kind1 kind2 : String,
      InjectedServiceNodeID sn1 s1 g1 = some (id, kind1) →
      RequestedServiceNodeID sn2 s2 g2 = some (id, kind2) → kind1 = kind2)
    ∧ (∀ sn1 s1 g1 sn2 s2 g2 id kind1 kind2 : String,
      RequestedServiceNodeID sn1 s1 g1 = some (id, kind1) →
      RequestedServiceNodeID sn2 s2 g2 = some (id, kind2) → kind1 = kind2) := by
  obtain ⟨f, hN, hI, hR⟩ := kind_of_identifier
  refine ⟨?_, ?_, ?_, ?_, ?_, ?_⟩
  · intro sn1 s1 wn1 w1 a1 v1 g1 sn2 s2 wn2 w2 a2 v2 g2 id kind1 kind2 h1 h2
    exact (hN _ _ _ _ _ _ _ _ _ h1).symm.trans (hN _ _ _ _ _ _ _ _ _ h2)
  · intro sn1 s1 wn1 w1 a1 v1 g1 sn2 s2 g2 id kind1 kind2 h1 h2
    exact (hN _ _ _ _ _ _ _ _ _ h1).symm.trans (hI _ _ _ _ _ h2)
  · intro sn1 s1 wn1 w1 a1 v1 g1 sn2 s2 g2 id kind1 kind2 h1 h2
    exact (hN _ _ _ _ _ _ _ _ _ h1).symm.trans (hR _ _ _ _ _ h2)
  · intro sn1 s1 g1 sn2 s2 g2 id kind1 kind2 h1 h2
    exact (hI _ _ _ _ _ h1).symm.trans (hI _ _ _ _ _ h2)
  · intro sn1 s1 g1 sn2 s2 g2 id kind1 kind2 h1 h2
    exact (hI _ _ _ _ _ h1).symm.trans (hR _ _ _ _ _ h2)
  · intro sn1 s1 g1 sn2 s2 g2 id kind1 kind2 h1 h2
    exact (hR _ _ _ _ _ h1).symm.trans (hR _ _ _ _ _ h2)

/-- C18 (witness): the same service identifier from `NodeID` in the workload variant and from
`InjectedServiceNodeID` in the app variant, and from `NodeID` in two variants with
namespaces that contain an underscore. -/
theorem identifier_determines_kind_witness :
    NodeID "ns" "db" "" "" "" "" "workload" = some ("svc_ns_db", "service")
    ∧ InjectedServiceNodeID "ns" "db" "app" = some ("svc_ns_db", "service")
    ∧ NodeID "a_b" "" "" "c" "" "" "workload" = some ("wl_a_b_c", "workload")
    ∧ NodeID "a" "" "" "b_c" "" "" "versionedApp" = some ("wl_a_b_c", "workload")
    ∧ ("service" : String) = "service" ∧ ("workload" : String) = "workload" :=
  ⟨by decide, by decide, by decide, by decide,
   identifier_determines_kind.2.1 "ns" "db" "" "" "" "" "workload" "ns" "db" "app"
     "svc_ns_db" "service" "service" (by decide) (by decide),
   identifier_determines_kind.1 "a_b" "" "" "c" "" "" "workload" "a" "" "" "b_c" "" ""
     "versionedApp" "wl_a_b_c" "workload" "workload" (by decide) (by decide)⟩

/-! ## Collisions in the workload variant -/

/-- Equal identifiers of two tuples whose resolved namespaces contain no underscore, in any
graph variant: the kinds and the resolved namespaces are equal, and so are the workloads of a
workload kind and the services of a service kind. -/
theorem NodeID_eq_id_core (graphType id kind1 kind2 : String)
    (serviceNamespace1 service1 workloadNamespace1 workload1 app1 version1 : String)
    (serviceNamespace2 service2 workloadNamespace2 workload2 app2 version2 : String)
    (h1 : NodeID serviceNamespace1 service1 workloadNamespace1 workload1 app1 version1 graphType
      = some (id, kind1))
    (h2 : NodeID serviceNamespace2 service2 workloadNamespace2 workload2 app2 version2 graphType
      = some (id, kind2))
    (hn1 : '_' ∉ (resolveNamespace serviceNamespace1 workloadNamespace1).data)
    (hn2 : '_' ∉ (resolveNamespace serviceNamespace2 workloadNamespace2).data) :
    kind1 = kind2
    ∧ resolveNamespace serviceNamespace1 workloadNamespace1
        = resolveNamespace serviceNamespace2 workloadNamespace2
    ∧ (kind1 = NodeTypeWorkload → workload1 = workload2)
    ∧ (kind1 = NodeTypeService → service1 = service2) := by
  have c1 := NodeID_some_cases _ _ _ _ _ _ _ _ _ h1
  have c2 := NodeID_some_cases _ _ _ _ _ _ _ _ _ h2
  rcases c1 with ⟨rfl, e1, n1⟩ | ⟨rfl, e1⟩ | ⟨rfl, e1⟩ | ⟨rfl, e1, g1⟩ | ⟨rfl, e1, g1, o1⟩ |
      ⟨rfl, e1, g1, o1, p1⟩ <;>
    rcases c2 with ⟨rfl, e2, n2⟩ | ⟨rfl, e2⟩ | ⟨rfl, e2⟩ | ⟨rfl, e2, g2⟩ | ⟨rfl, e2, g2, o2⟩ |
      ⟨rfl, e2, g2, o2, p2⟩ <;>
    rw [e1] at e2 <;>
    have hd := congrArg String.data e2 <;>
    simp [String.data_append] at hd
  · refine ⟨rfl, n1.trans n2.symm, ?_, ?_⟩ <;> intro hk <;> exact absurd hk (by decide)
  all_goals
    obtain ⟨hns, hr⟩ := append_underscore_cancel _ _ _ _ hn1 hn2 hd
    refine ⟨rfl, String.ext hns, ?_, ?_⟩
  all_goals intro hk
  all_goals first
    | exact absurd hk (by decide)
    | exact String.ext hr

/-- C19: in the workload variant `NodeID` is collision-free when namespaces contain no
underscore: for two tuples on which it returns and whose resolved namespaces contain no
underscore, equal identifiers imply equal kinds, equal resolved namespaces, and equal
workloads for kind workload or equal service names for kind service. -/
theorem NodeID_workload_no_collision (id kind1 kind2 : String)
    (serviceNamespace1 service1 workloadNamespace1 workload1 app1 version1 : String)
    (serviceNamespace2 service2 workloadNamespace2 workload2 app2 version2 : String)
    (h1 : NodeID serviceNamespace1 service1 workloadNamespace1 workload1 app1 version1
      GraphTypeWorkload = some (id, kind1))
    (h2 : NodeID serviceNamespace2 service2 workloadNamespace2 workload2 app2 version2
      GraphTypeWorkload = some (id, kind2))
    (hn1 : '_' ∉ (resolveNamespace serviceNamespace1 workloadNamespace1).toList)
    (hn2 : '_' ∉ (resolveNamespace serviceNamespace2 workloadNamespace2).toList) :
    kind1 = kind2
    ∧ resolveNamespace serviceNamespace1 workloadNamespace1
        = resolveNamespace serviceNamespace2 workloadNamespace2
    ∧ (kind1 = NodeTypeWorkload → workload1 = workload2)
    ∧ (kind1 = NodeTypeService → service1 = service2) :=
  NodeID_eq_id_core GraphTypeWorkload id kind1 kind2 _ _ _ _ _ _ _ _ _ _ _ _ h1 h2 hn1 hn2

/-- C19 (witness): two tuples with the service identifier "svc_billing_db" and underscores
in the fields that the identifier does not use. -/
theorem NodeID_workload_no_collision_witness :
    NodeID "billing" "db" "" "" "a_1" "v_1" "workload" = some ("svc_billing_db", "service")
    ∧ NodeID "x_y" "db" "billing" "unknown" "" "" "workload"
        = some ("svc_billing_db", "service")
    ∧ '_' ∉ (resolveNamespace "billing" "").toList
    ∧ '_' ∉ (resolveNamespace "x_y" "billing").toList
    ∧ resolveNamespace "billing" "" = resolveNamespace "x_y" "billing"
    ∧ ("db" : String) = "db" :=
  ⟨by decide, by decide, by decide, by decide,
   (NodeID_workload_no_collision "svc_billing_db" "service" "service"
      "billing" "db" "" "" "a_1" "v_1" "x_y" "db" "billing" "unknown" "" ""
      (by decide) (by decide) (by decide) (by decide)).2.1,
   (NodeID_workload_no_collision "svc_billing_db" "service" "service"
      "billing" "db" "" "" "a_1" "v_1" "x_y" "db" "billing" "unknown" "" ""
      (by decide) (by decide) (by decide) (by decide)).2.2.2 rfl⟩

end Graph
